import Mathlib

set_option maxHeartbeats 1000000
set_option maxRecDepth 8000

/-!
Verification of the quantum-fireworks particle system.

The repository holds two versions of the simulation:
  * the main version, `quantum-fireworks-main/fireworks.js` (classes
    `FireworkSystem`, `Firework`, `Particle`);
  * a legacy version, `fireworks.js` (modelled below with the prefix `Old`).

The embedding below translates the update / explosion / spawning logic of
both versions.  Real-valued quantities (positions, velocities, seconds) are
modelled as rationals.  Calls to the library RNG `random(lo, hi)` are
modelled by explicit draw parameters: a uniform draw `u` with `0 ≤ u < 1`
enters through `rand lo hi u = lo + u*(hi - lo)`, and a draw of
`p5.Vector.fromAngle(random(TWO_PI))` / `p5.Vector.random2D()` is modelled
as a unit-vector parameter (`magSq = 1`), `p5.Vector.random3D()` projected
to the canvas plane as a vector with `magSq ≤ 1`.  Rendering-only data
(colour channels, palettes, the draw calls) and the GUI wiring are outside
the model; alpha, the one colour channel the update logic reads and writes,
is kept.
-/

/-- 2-D vector, as used by the sketch (`p5.Vector`, z unused). -/
structure PVector where
  x : ℚ
  y : ℚ
deriving DecidableEq

def PVector.add (a b : PVector) : PVector := PVector.mk (a.x + b.x) (a.y + b.y)

def PVector.smul (a : PVector) (s : ℚ) : PVector := PVector.mk (a.x * s) (a.y * s)

def PVector.magSq (a : PVector) : ℚ := a.x * a.x + a.y * a.y

/-- `random(lo, hi)` at uniform draw `u ∈ [0,1)`. -/
def rand (lo hi u : ℚ) : ℚ := lo + u * (hi - lo)

/-- p5 `constrain(n, low, high)`. -/
def constrain (x lo hi : ℚ) : ℚ := max (min x hi) lo

/-- p5 `lerp(start, stop, amt)`. -/
def lerp (a b t : ℚ) : ℚ := a + (b - a) * t

/-- Frame time step in seconds: `(deltaTime > 0 && deltaTime < 250) ? deltaTime/1000 : 1/60`. -/
def dtOf (deltaTime : ℚ) : ℚ := if 0 < deltaTime ∧ deltaTime < 250 then deltaTime / 1000 else 1 / 60

/-- JS `floor` of a nonnegative quantity, clamped to ℕ. -/
def jsFloorNat (x : ℚ) : ℕ := (Int.floor x).toNat

/-- Number of iterations of `for (let i = 0; i < x; i++)` with integer `i`. -/
def jsLoopCount (x : ℚ) : ℕ := (Int.ceil x).toNat

/-- JS `x || d` for a numeric config field (0 is falsy). -/
def jsOrQ (x d : ℚ) : ℚ := if x = 0 then d else x

/-- JS `x || d` for an integer config field (0 is falsy). -/
def jsOrNat (x d : ℕ) : ℕ := if x = 0 then d else x

/-- JS `options.f || d` for an optional numeric option (missing or 0 gives `d`). -/
def jsOrOpt (v : Option ℚ) (d : ℚ) : ℚ :=
  match v with
  | none => d
  | some x => if x = 0 then d else x

/-- JS `s || d` for an optional string (missing or empty gives `d`). -/
def jsOrStr (v : Option String) (d : String) : String :=
  match v with
  | none => d
  | some s => if s = "" then d else s

/-- `random(list)`: an element chosen by an arbitrary index draw. -/
def pickList (l : List String) (k : ℕ) : Option String := l.get? (k % l.length)

def FIREWORK_TYPES : List String :=
  ["PEONY", "CHRYSANTHEMUM", "PALM", "WILLOW", "STROBE", "CRACKLING", "MULTI_BREAK", "RANDOM"]

def MAX_PARTICLES_PER_FIREWORK : ℕ := 5000

def MAX_TOTAL_PARTICLES : ℕ := 30000

def TRAIL_LENGTH : ℕ := 15

/-- Sub-types a MULTI_BREAK mini-shell may receive:
`FIREWORK_TYPES.filter(t => t !== 'RANDOM' && t !== 'MULTI_BREAK')`. -/
def validSubTypes : List String :=
  FIREWORK_TYPES.filter (fun s => (!(s == "RANDOM")) && (!(s == "MULTI_BREAK")))

/-- Particle roles (the `role` string tag of the main version). -/
inductive Role where
  | SHELL
  | EXPLOSION
  | STROBE
  | CRACKLE_SOURCE
  | CRACKLE
  | MINI_SHELL
deriving DecidableEq

/-- The `FireworkSystem` configuration record (GUI-only display fields such as
bloom and background opacity are omitted: the update logic never reads them). -/
structure SystemConfig where
  launchFrequency : ℚ := 1/2
  explosionSize : ℚ := 400
  particleCount : ℕ := 1500
  wind : ℚ := 3/10
  turbulence : ℚ := 1/100
  gravity : ℚ := 2/25
  airDrag : ℚ := 1/50
  autoLaunch : Bool := true
  particleType : String := "CLASSIC"
  fireworkType : String := "RANDOM"
  maxTotalParticles : ℕ := MAX_TOTAL_PARTICLES
deriving DecidableEq

/-- The options bag of the `Particle` constructor. -/
structure POptions where
  lifespan : Option ℚ := none
  strobeRate : Option ℚ := none
  crackleRate : Option ℚ := none
  fadeRate : Option ℚ := none
  delay : Option ℚ := none
  subType : Option String := none
deriving DecidableEq

/-- Main-version `Particle` state (colour channels other than alpha, and the
unused `density`/`pressure` placeholders, are not modelled). -/
structure Particle where
  pos : PVector
  vel : PVector
  acc : PVector
  alpha : ℚ
  baseAlpha : ℚ
  size : ℚ
  role : Role
  particleStyle : String
  lifespan : ℚ
  strobeRate : ℚ
  crackleRate : ℚ
  fadeRate : ℚ
  delay : ℚ
  subType : Option String
  timeCreated : ℚ
  lastStrobe : ℚ
  lastCrackle : ℚ
  strobeOn : Bool
  isFading : Bool
  fadeStartAlpha : ℚ
  fadeStartTime : ℚ
  fadeDuration : ℚ
  trail : List PVector
  maxTrailLength : ℕ
  fluid : Bool
  viscosity : ℚ
deriving DecidableEq

/-- The `Particle` constructor (`new Particle(pos, vel, col, size, role, options)`),
at creation time `t = millis()/1000`; `alpha0` is the alpha channel of `col`,
`lifespanDraw` the `random(1.5, 2.5)` value used when no lifespan option is given. -/
def Particle.create (pos vel : PVector) (alpha0 size : ℚ) (role : Role)
    (opts : POptions) (t lifespanDraw : ℚ) : Particle :=
  { pos := pos, vel := vel, acc := PVector.mk 0 0,
    alpha := alpha0, baseAlpha := alpha0, size := size, role := role,
    particleStyle := "CLASSIC",
    lifespan := jsOrOpt opts.lifespan lifespanDraw,
    strobeRate := jsOrOpt opts.strobeRate 0,
    crackleRate := jsOrOpt opts.crackleRate 0,
    fadeRate := jsOrOpt opts.fadeRate 1,
    delay := jsOrOpt opts.delay 0,
    subType := opts.subType,
    timeCreated := t, lastStrobe := t, lastCrackle := t,
    strobeOn := true, isFading := false,
    fadeStartAlpha := alpha0, fadeStartTime := 0,
    fadeDuration := 1/2 / max (1/10) (jsOrOpt opts.fadeRate 1),
    trail := [], maxTrailLength := TRAIL_LENGTH,
    fluid := false, viscosity := 49/50 }

/-- Environment of one `Particle.update` call: current time (seconds),
`deltaTime` (milliseconds), the global particle count and cap read by the
crackle branch, the `random(0.7, 1.3)` draw of the crackle interval, and the
noise-derived unit direction of the fluid swirl force. -/
structure UpdEnv where
  t : ℚ
  deltaTime : ℚ
  particlesLen : ℕ
  maxTotal : ℕ
  crackleU : ℚ
  noiseDir : PVector
deriving DecidableEq

/-- Alpha while fading:
`max(0, lerp(fadeStartAlpha, 0, constrain((t - fadeStartTime)/fadeDuration, 0, 1)))`. -/
def fadeAlpha (fsa fst fd t : ℚ) : ℚ :=
  max 0 (lerp fsa 0 (constrain ((t - fst) / fd) 0 1))

/-- `this.particleStyle === 'FLUID' && this.fluid`. -/
def fluidActive (p : Particle) : Bool := (p.particleStyle == "FLUID") && p.fluid

/-- Velocity after the physics step (and, for fluid particles, the viscosity
damping applied at the end of the same update). -/
def Particle.velStep (p : Particle) : PVector :=
  let vel1 := p.vel.add p.acc
  if fluidActive p then vel1.smul p.viscosity else vel1

/-- Position after the physics step: `pos += (vel + acc) * dt`. -/
def Particle.posStep (p : Particle) (e : UpdEnv) : PVector :=
  p.pos.add ((p.vel.add p.acc).smul (dtOf e.deltaTime))

/-- Acceleration after the update: cleared, then (for fluid particles only)
re-accumulated with the swirl force `noiseDir * 0.08`. -/
def Particle.accStep (p : Particle) (e : UpdEnv) : PVector :=
  if fluidActive p then (PVector.mk 0 0).add (e.noiseDir.smul (2/25)) else PVector.mk 0 0

/-- `while (trail.length > maxTrailLength) trail.shift()`. -/
def trimTrail (l : List PVector) (n : ℕ) : List PVector := l.drop (l.length - n)

/-- Trail after the update: push the new position when moving, else shift. -/
def Particle.trailStep (p : Particle) (e : UpdEnv) : List PVector :=
  if 1/100 < (p.vel.add p.acc).magSq then trimTrail (p.trail ++ [p.posStep e]) p.maxTrailLength
  else p.trail.drop 1

/-- Whether this update starts the fade: not yet fading, not a mini-shell,
and `age >= lifespan`. -/
def Particle.fadingTriggered (p : Particle) (t : ℚ) : Bool :=
  (!p.isFading) && (!(decide (p.role = Role.MINI_SHELL)))
    && decide (p.lifespan ≤ t - p.timeCreated)

def Particle.isFadingStep (p : Particle) (t : ℚ) : Bool := p.isFading || p.fadingTriggered t

def Particle.alphaStep (p : Particle) (t : ℚ) : ℚ :=
  if p.isFading then fadeAlpha p.fadeStartAlpha p.fadeStartTime p.fadeDuration t else p.alpha

def Particle.fadeStartTimeStep (p : Particle) (t : ℚ) : ℚ :=
  if p.fadingTriggered t then t else p.fadeStartTime

def Particle.fadeStartAlphaStep (p : Particle) (t : ℚ) : ℚ :=
  if p.fadingTriggered t then p.alpha else p.fadeStartAlpha

def Particle.fadeDurationStep (p : Particle) (t : ℚ) : ℚ :=
  if p.fadingTriggered t then max (1/100) (1/2 / max (1/10) p.fadeRate) else p.fadeDuration

/-- The STROBE branch: `(strobeOn, lastStrobe)` after the update.  It reads
the already-updated `isFading`. -/
def Particle.strobeStep (p : Particle) (t : ℚ) : Bool × ℚ :=
  if (decide (p.role = Role.STROBE)) && (decide (0 < p.strobeRate)) && (!(p.isFadingStep t)) then
    let interval := 1 / p.strobeRate
    if interval ≤ t - p.lastStrobe then
      let ls := p.lastStrobe + interval
      (!p.strobeOn, if ls < t - interval * 2 then t else ls)
    else (p.strobeOn, p.lastStrobe)
  else (p.strobeOn, p.lastStrobe)

/-- The CRACKLE_SOURCE branch: `lastCrackle` after the update (it is reset to
`t` exactly when a crackle burst is spawned; the spawned particles themselves
are `Particle.spawnCrackle` below). -/
def Particle.lastCrackleStep (p : Particle) (e : UpdEnv) : ℚ :=
  if (decide (p.role = Role.CRACKLE_SOURCE)) && (decide (0 < p.crackleRate))
      && (!(p.isFadingStep e.t)) then
    let interval := rand (7/10) (13/10) e.crackleU / p.crackleRate
    if (decide (interval ≤ e.t - p.lastCrackle)) && (decide (e.particlesLen + 5 < e.maxTotal))
    then e.t else p.lastCrackle
  else p.lastCrackle

/-- The non-mini-shell path of `Particle.update`: physics, trail, fading,
strobe, crackle timer, fluid behaviour. -/
def Particle.updateMain (p : Particle) (e : UpdEnv) : Particle :=
  { p with
    pos := p.posStep e,
    vel := p.velStep,
    acc := p.accStep e,
    trail := p.trailStep e,
    alpha := p.alphaStep e.t,
    isFading := p.isFadingStep e.t,
    fadeStartTime := p.fadeStartTimeStep e.t,
    fadeStartAlpha := p.fadeStartAlphaStep e.t,
    fadeDuration := p.fadeDurationStep e.t,
    strobeOn := (p.strobeStep e.t).1,
    lastStrobe := (p.strobeStep e.t).2,
    lastCrackle := p.lastCrackleStep e }

/-- One `Particle.update` call.  The boolean records whether this call invoked
`explodeSecondary` (the mini-shell trigger); on that path the source sets
`alpha = 0` and `delay = 0` and returns, and a mini-shell whose delay is
already spent is forced to `alpha = 0` and returns. -/
def Particle.update (p : Particle) (e : UpdEnv) : Particle × Bool :=
  if p.role = Role.MINI_SHELL ∧ 0 < p.delay ∧ p.delay ≤ e.t - p.timeCreated then
    ({ p with alpha := 0, delay := 0 }, true)
  else if p.role = Role.MINI_SHELL ∧ p.delay ≤ 0 then
    ({ p with alpha := 0 }, false)
  else (p.updateMain e, false)

/-- A sequence of update calls on one particle, counting the secondary
explosions it triggers. -/
def Particle.runUpdates (p : Particle) : List UpdEnv → Particle × ℕ
  | [] => (p, 0)
  | e :: es =>
    let r := p.update e
    let rest := r.1.runUpdates es
    (rest.1, (if r.2 then 1 else 0) + rest.2)

/-- `isDone()`: the removal predicate of the frame loop. -/
def Particle.isDone (p : Particle) : Bool := decide (p.alpha ≤ 0)

/-- Draws consumed by `spawnCrackle`: the `random(1, 4)` count draw and the
per-crackle direction / speed / size / lifespan draws. -/
structure CrackleDraws where
  countU : ℚ := 0
  dir : ℕ → PVector := fun _ => PVector.mk 1 0
  speedU : ℕ → ℚ := fun _ => 0
  sizeU : ℕ → ℚ := fun _ => 0
  lifeU : ℕ → ℚ := fun _ => 0

/-- One crackle sub-particle, as `spawnCrackle` constructs it. -/
def crackleChild (parentPos parentVel : PVector) (style : String)
    (d : CrackleDraws) (t : ℚ) (i : ℕ) : Particle :=
  let offsetVel := (d.dir i).smul (rand 3 6 (d.speedU i))
  let crackleVel := (parentVel.smul (1/5)).add offsetVel
  { Particle.create parentPos crackleVel 255 (rand 1 (5/2) (d.sizeU i)) Role.CRACKLE
      { lifespan := some (rand (1/20) (3/20) (d.lifeU i)), fadeRate := some 8 } t 0
    with particleStyle := style }

/-- The `spawnCrackle` loop: each iteration first checks
`particles.length >= maxTotalParticles` and breaks, else pushes. -/
def spawnCrackleLoop (maxTotal : ℕ) (mk : ℕ → Particle) : ℕ → ℕ → List Particle → List Particle
  | _, 0, ps => ps
  | i, Nat.succ k, ps =>
    if maxTotal ≤ ps.length then ps
    else spawnCrackleLoop maxTotal mk (i + 1) k (ps ++ [mk i])

/-- `Particle.spawnCrackle`: spawn `floor(random(1,4))` crackle sub-particles,
capped by the global particle limit. -/
def Particle.spawnCrackle (p : Particle) (maxTotal : ℕ) (d : CrackleDraws) (t : ℚ)
    (ps : List Particle) : List Particle :=
  spawnCrackleLoop maxTotal (crackleChild p.pos p.vel p.particleStyle d t) 0
    (jsFloorNat (rand 1 4 d.countU)) ps

/-- Arguments of one `createParticle` call. -/
structure CPArgs where
  pos : PVector
  vel : PVector
  size : ℚ
  role : Role
  opts : POptions
  lifeDraw : ℚ

/-- The particle a successful `createParticle` call pushes (constructor plus
the `particleStyle` assignment from the config). -/
def mkCreated (cfg : SystemConfig) (t : ℚ) (a : CPArgs) : Particle :=
  { Particle.create a.pos a.vel 255 a.size a.role a.opts t a.lifeDraw
    with particleStyle := cfg.particleType }

/-- `Firework.createParticle`: push one particle unless the global cap is
reached (then silently skip). -/
def Firework.createParticle (cfg : SystemConfig) (t : ℚ) (a : CPArgs)
    (ps : List Particle) : List Particle :=
  if ps.length < cfg.maxTotalParticles then ps ++ [mkCreated cfg t a] else ps

/-- A plain `for` loop of `createParticle` calls (the explosion pattern loops). -/
def createLoop (cfg : SystemConfig) (t : ℚ) (mk : ℕ → CPArgs) (n : ℕ)
    (ps : List Particle) : List Particle :=
  (List.range n).foldl (fun acc i => Firework.createParticle cfg t (mk i) acc) ps

/-- The secondary-explosion loops: each iteration first checks the cap and
breaks, then calls `createParticle` (which checks again). -/
def capLoop (cfg : SystemConfig) (t : ℚ) (mk : ℕ → CPArgs) : ℕ → ℕ → List Particle → List Particle
  | _, 0, ps => ps
  | i, Nat.succ k, ps =>
    if cfg.maxTotalParticles ≤ ps.length then ps
    else capLoop cfg t mk (i + 1) k (Firework.createParticle cfg t (mk i) ps)

/-- Randomness consumed by `Firework.explode`, one stream per kind of draw. -/
structure ExplodeDraws where
  dir : ℕ → PVector := fun _ => PVector.mk 1 0
  sphere : ℕ → PVector := fun _ => PVector.mk 1 0
  var2D : ℕ → PVector := fun _ => PVector.mk 1 0
  branchAngle : ℕ → PVector := fun _ => PVector.mk 1 0
  magU : ℕ → ℚ := fun _ => 0
  lifeU : ℕ → ℚ := fun _ => 0
  sizeU : ℕ → ℚ := fun _ => 0
  strobeU : ℕ → ℚ := fun _ => 0
  crackleU : ℕ → ℚ := fun _ => 0
  branchMagU : ℕ → ℚ := fun _ => 0
  branchCountU : ℚ := 0
  breaksU : ℚ := 0
  miniDelayU : ℕ → ℚ := fun _ => 0
  miniSubPick : ℕ → ℕ := fun _ => 0

/-- The particle spec of one PEONY / CHRYSANTHEMUM explosion iteration. -/
def peonyArgs (chrys : Bool) (pos inherited : PVector) (baseForce : ℚ)
    (d : ExplodeDraws) (i : ℕ) : CPArgs :=
  { pos := pos,
    vel := ((d.dir i).smul
      (rand (baseForce * (4/5)) (baseForce * (6/5)) (d.magU i)
        * (if chrys then 21/20 else 1))).add inherited,
    size := 3, role := Role.EXPLOSION,
    opts := { lifespan := some (rand 1 (9/5) (d.lifeU i) * (if chrys then 11/10 else 1)) },
    lifeDraw := 0 }

/-- PEONY / CHRYSANTHEMUM branch of `Firework.explode`. -/
def explodePeony (chrys : Bool) (cfg : SystemConfig) (pos inherited : PVector)
    (baseForce : ℚ) (n : ℕ) (d : ExplodeDraws) (t : ℚ) (ps : List Particle) : List Particle :=
  createLoop cfg t (peonyArgs chrys pos inherited baseForce d) n ps

/-- The particle spec of one PALM iteration: flat index `k` stands for
branch `k / ppb`, member `k % ppb`. -/
def palmArgs (pos inherited : PVector) (baseForce : ℚ) (ppb : ℕ)
    (d : ExplodeDraws) (k : ℕ) : CPArgs :=
  { pos := pos,
    vel := (((d.branchAngle (k / ppb)).smul
        (baseForce * rand (6/5) (8/5) (d.branchMagU (k / ppb)))).add
        ((d.var2D k).smul (baseForce * (7/20)))).add inherited,
    size := rand 3 (9/2) (d.sizeU k), role := Role.EXPLOSION,
    opts := { lifespan := some (rand (3/2) (5/2) (d.lifeU k)) },
    lifeDraw := 0 }

/-- PALM branch: `floor(random(4,7))` branches, `numParticles / mainBranches`
particles per branch. -/
def explodePalm (cfg : SystemConfig) (pos inherited : PVector) (baseForce : ℚ) (n : ℕ)
    (d : ExplodeDraws) (t : ℚ) (ps : List Particle) : List Particle :=
  let mainBranches := jsFloorNat (rand 4 7 d.branchCountU)
  let ppb := n / mainBranches
  createLoop cfg t (palmArgs pos inherited baseForce ppb d) (mainBranches * ppb) ps

/-- The particle spec of one WILLOW iteration. -/
def willowArgs (pos inherited : PVector) (baseForce : ℚ) (d : ExplodeDraws) (i : ℕ) : CPArgs :=
  { pos := pos,
    vel := ((d.dir i).smul (rand (baseForce * (2/5)) (baseForce * (4/5)) (d.magU i))).add inherited,
    size := 5/2, role := Role.EXPLOSION,
    opts := { lifespan := some (rand 3 5 (d.lifeU i)), fadeRate := some (2/5) },
    lifeDraw := 0 }

/-- WILLOW branch: slower burst, longer life, slower fade. -/
def explodeWillow (cfg : SystemConfig) (pos inherited : PVector) (baseForce : ℚ) (n : ℕ)
    (d : ExplodeDraws) (t : ℚ) (ps : List Particle) : List Particle :=
  createLoop cfg t (willowArgs pos inherited baseForce d) n ps

/-- The particle spec of one STROBE iteration. -/
def strobeArgs (pos inherited : PVector) (baseForce : ℚ) (d : ExplodeDraws) (i : ℕ) : CPArgs :=
  { pos := pos,
    vel := ((d.dir i).smul (rand (baseForce * (7/10)) (baseForce * (11/10)) (d.magU i))).add inherited,
    size := 2, role := Role.STROBE,
    opts := { lifespan := some (rand (3/2) 3 (d.lifeU i)),
              strobeRate := some (rand 5 15 (d.strobeU i)) },
    lifeDraw := 0 }

/-- STROBE branch: `numParticles * 0.7` flashing particles. -/
def explodeStrobe (cfg : SystemConfig) (pos inherited : PVector) (baseForce : ℚ) (n : ℕ)
    (d : ExplodeDraws) (t : ℚ) (ps : List Particle) : List Particle :=
  createLoop cfg t (strobeArgs pos inherited baseForce d) (jsLoopCount ((n : ℚ) * (7/10))) ps

/-- The particle spec of one CRACKLING iteration. -/
def cracklingArgs (pos inherited : PVector) (baseForce : ℚ) (d : ExplodeDraws) (i : ℕ) : CPArgs :=
  { pos := pos,
    vel := ((d.dir i).smul (rand (baseForce * (3/5)) (baseForce * 1) (d.magU i))).add inherited,
    size := 5/2, role := Role.CRACKLE_SOURCE,
    opts := { lifespan := some (rand (4/5) (3/2) (d.lifeU i)),
              crackleRate := some (rand 3 8 (d.crackleU i)) },
    lifeDraw := 0 }

/-- CRACKLING branch: `numParticles * 0.8` crackle-source particles. -/
def explodeCrackling (cfg : SystemConfig) (pos inherited : PVector) (baseForce : ℚ) (n : ℕ)
    (d : ExplodeDraws) (t : ℚ) (ps : List Particle) : List Particle :=
  createLoop cfg t (cracklingArgs pos inherited baseForce d) (jsLoopCount ((n : ℚ) * (4/5))) ps

/-- One mini-shell of the MULTI_BREAK branch: constructed directly (not via
`createParticle`) and given its delay, sub-type, palette and creation time. -/
def mkMiniShell (explosionPos vel : PVector) (delayU : ℚ) (subPick : ℕ)
    (t lifeDraw : ℚ) : Particle :=
  { Particle.create explosionPos vel 200 3 Role.MINI_SHELL {} t lifeDraw with
    delay := rand (2/5) (9/10) delayU,
    subType := pickList validSubTypes subPick,
    timeCreated := t }

/-- MULTI_BREAK branch of `Firework.explode`: pushes `floor(random(2,5))`
mini-shells unconditionally (the source performs no cap check here). -/
def explodeMultiBreak (cfg : SystemConfig) (pos inherited : PVector) (baseForce : ℚ)
    (d : ExplodeDraws) (t : ℚ) (ps : List Particle) : List Particle :=
  let breaks := jsFloorNat (rand 2 5 d.breaksU)
  ps ++ (List.range breaks).map (fun i =>
    mkMiniShell pos
      (((d.dir i).smul (rand (baseForce * (3/5)) (baseForce * 1) (d.magU i))).add
        (inherited.smul (3/2)))
      (d.miniDelayU i) (d.miniSubPick i) t (d.lifeU i))

/-- Default branch of `Firework.explode` (unknown type): generic spherical
burst from flattened `random3D` directions. -/
def defaultArgs (pos inherited : PVector) (baseForce : ℚ) (d : ExplodeDraws) (i : ℕ) : CPArgs :=
  { pos := pos,
    vel := ((d.sphere i).smul (rand (baseForce * (7/10)) (baseForce * (13/10)) (d.magU i))).add inherited,
    size := 3, role := Role.EXPLOSION,
    opts := { lifespan := some (rand (6/5) (11/5) (d.lifeU i)) },
    lifeDraw := 0 }

def explodeDefault (cfg : SystemConfig) (pos inherited : PVector) (baseForce : ℚ) (n : ℕ)
    (d : ExplodeDraws) (t : ℚ) (ps : List Particle) : List Particle :=
  createLoop cfg t (defaultArgs pos inherited baseForce d) n ps

/-- `Firework.explode` of the main version: dispatch on the type tag.
`shellPos`/`shellVel` are the shell particle's state at detonation. -/
def Firework.explode (typ : String) (cfg : SystemConfig) (shellPos shellVel : PVector)
    (d : ExplodeDraws) (t : ℚ) (ps : List Particle) : List Particle :=
  let numParticles := min (jsOrNat cfg.particleCount 1000) MAX_PARTICLES_PER_FIREWORK
  let baseForce := jsOrQ cfg.explosionSize 400 / 10
  let inherited := shellVel.smul (1/10)
  if typ = "PEONY" then explodePeony false cfg shellPos inherited baseForce numParticles d t ps
  else if typ = "CHRYSANTHEMUM" then
    explodePeony true cfg shellPos inherited baseForce numParticles d t ps
  else if typ = "PALM" then explodePalm cfg shellPos inherited baseForce numParticles d t ps
  else if typ = "WILLOW" then explodeWillow cfg shellPos inherited baseForce numParticles d t ps
  else if typ = "STROBE" then explodeStrobe cfg shellPos inherited baseForce numParticles d t ps
  else if typ = "CRACKLING" then
    explodeCrackling cfg shellPos inherited baseForce numParticles d t ps
  else if typ = "MULTI_BREAK" then explodeMultiBreak cfg shellPos inherited baseForce d t ps
  else explodeDefault cfg shellPos inherited baseForce numParticles d t ps

/-- Randomness consumed by `Particle.explodeSecondary`. -/
structure SecDraws where
  dir : ℕ → PVector := fun _ => PVector.mk 1 0
  magU : ℕ → ℚ := fun _ => 0
  lifeU : ℕ → ℚ := fun _ => 0
  sizeU : ℕ → ℚ := fun _ => 0
  strobeU : ℕ → ℚ := fun _ => 0
  crackleU : ℕ → ℚ := fun _ => 0

/-- The particle spec of one secondary CRACKLING iteration. -/
def secCracklingArgs (explosionPos inherited : PVector) (baseForce : ℚ)
    (d : SecDraws) (i : ℕ) : CPArgs :=
  { pos := explosionPos,
    vel := ((d.dir i).smul (rand (baseForce * (3/5)) (baseForce * 1) (d.magU i))).add inherited,
    size := 5/2, role := Role.CRACKLE_SOURCE,
    opts := { lifespan := some (rand (3/5) (6/5) (d.lifeU i)),
              crackleRate := some (rand 4 9 (d.crackleU i)) },
    lifeDraw := 0 }

/-- The particle spec of one secondary STROBE iteration. -/
def secStrobeArgs (explosionPos inherited : PVector) (baseForce : ℚ)
    (d : SecDraws) (i : ℕ) : CPArgs :=
  { pos := explosionPos,
    vel := ((d.dir i).smul (rand (baseForce * (7/10)) (baseForce * (11/10)) (d.magU i))).add inherited,
    size := 2, role := Role.STROBE,
    opts := { lifespan := some (rand 1 2 (d.lifeU i)),
              strobeRate := some (rand 6 16 (d.strobeU i)) },
    lifeDraw := 0 }

/-- The particle spec of one secondary peony-like iteration (the default of
the secondary switch). -/
def secPeonyArgs (explosionPos inherited : PVector) (baseForce : ℚ)
    (d : SecDraws) (i : ℕ) : CPArgs :=
  { pos := explosionPos,
    vel := ((d.dir i).smul (rand (baseForce * (4/5)) (baseForce * (6/5)) (d.magU i))).add inherited,
    size := rand 2 (7/2) (d.sizeU i), role := Role.EXPLOSION,
    opts := { lifespan := some (rand (4/5) (3/2) (d.lifeU i)) },
    lifeDraw := 0 }

/-- `Particle.explodeSecondary`: the smaller burst a mini-shell performs.  The
switch sends CRACKLING and STROBE to their branches; PEONY, CHRYSANTHEMUM and
every other sub-type share the default (peony-like) branch. -/
def Particle.explodeSecondary (p : Particle) (cfg : SystemConfig) (d : SecDraws) (t : ℚ)
    (ps : List Particle) : List Particle :=
  let numParticles := jsFloorNat (min ((jsOrNat cfg.particleCount 1000 : ℕ) * (2/5) : ℚ)
    (MAX_PARTICLES_PER_FIREWORK : ℚ))
  let baseForce := jsOrQ cfg.explosionSize 400 / 18
  let explosionPos := p.pos
  let explosionType := jsOrStr p.subType "PEONY"
  let inherited := p.vel.smul (3/10)
  if explosionType = "CRACKLING" then
    capLoop cfg t (secCracklingArgs explosionPos inherited baseForce d) 0
      (jsLoopCount ((numParticles : ℚ) * (4/5))) ps
  else if explosionType = "STROBE" then
    capLoop cfg t (secStrobeArgs explosionPos inherited baseForce d) 0
      (jsLoopCount ((numParticles : ℚ) * (7/10))) ps
  else
    capLoop cfg t (secPeonyArgs explosionPos inherited baseForce d) 0 numParticles ps

/-- Firework lifecycle tag. -/
inductive Lifecycle where
  | ASCENT
  | EXPLOSION
deriving DecidableEq

/-- Main-version `Firework` control state (the shell particle itself lives in
the global particle list; its state reaches `update` through `FwObs`). -/
structure Firework where
  typ : String
  lifecycle : Lifecycle
  explosionAltitude : ℚ
  hasExploded : Bool
deriving DecidableEq

/-- A freshly constructed `Firework`. -/
def Firework.init (typ : String) (alt : ℚ) : Firework :=
  { typ := typ, lifecycle := Lifecycle.ASCENT, explosionAltitude := alt, hasExploded := false }

/-- What one `Firework.update` call observes of its shell particle. -/
structure FwObs where
  shellVelY : ℚ
  shellPosY : ℚ
  shellInParticles : Bool
deriving DecidableEq

/-- First block of `Firework.update`: while ascending, if
`vel.y >= -0.5 || pos.y <= explosionAltitude` and not yet exploded, explode
and move to EXPLOSION (the boolean records the `explode()` call). -/
def Firework.updateAscend (fw : Firework) (o : FwObs) : Firework × Bool :=
  if fw.lifecycle = Lifecycle.ASCENT
      ∧ (-(1/2) ≤ o.shellVelY ∨ o.shellPosY ≤ fw.explosionAltitude)
      ∧ fw.hasExploded = false then
    ({ fw with lifecycle := Lifecycle.EXPLOSION, hasExploded := true }, true)
  else (fw, false)

/-- `Firework.update` of the main version: the first block, then — if still
ascending and the shell has vanished from the particle list — mark exploded
without exploding. -/
def Firework.update (fw : Firework) (o : FwObs) : Firework × Bool :=
  if (fw.updateAscend o).1.lifecycle = Lifecycle.ASCENT ∧ o.shellInParticles = false then
    ({ (fw.updateAscend o).1 with lifecycle := Lifecycle.EXPLOSION, hasExploded := true },
      (fw.updateAscend o).2)
  else fw.updateAscend o

/-- `get done()` of the main version: exploded, regardless of particles. -/
def Firework.done (fw : Firework) : Bool := decide (fw.lifecycle = Lifecycle.EXPLOSION)

/-- A sequence of `Firework.update` calls, counting `explode()` invocations. -/
def runFwUpdates (fw : Firework) : List FwObs → Firework × ℕ
  | [] => (fw, 0)
  | o :: os =>
    let r := fw.update o
    let rest := runFwUpdates r.1 os
    (rest.1, (if r.2 then 1 else 0) + rest.2)

/-- `FireworkSystem.launch`: refuse at the global cap (a logged no-op), else
construct the firework, whose constructor pushes the shell particle. -/
def FireworkSystem.launch (cfg : SystemConfig) (pos vel : PVector) (t lifeDraw : ℚ)
    (ps : List Particle) : List Particle :=
  if cfg.maxTotalParticles ≤ ps.length then ps
  else ps ++ [Particle.create pos vel 200 4 Role.SHELL {} t lifeDraw]

/-- One frame of the shell particle inside the global loop: the external
force (gravity + wind + drag) is accumulated by `applyForce`, then
`Particle.update` runs. -/
def shellFrame (p : Particle) (f : PVector) (e : UpdEnv) : Particle :=
  (({ p with acc := p.acc.add f }).update e).1

/-- The shell states after each frame of a run. -/
def shellStates (p : Particle) : List (PVector × UpdEnv) → List Particle
  | [] => []
  | s :: rest =>
    let p1 := shellFrame p s.1 s.2
    p1 :: shellStates p1 rest

/-- The shell state after a whole run. -/
def shellRunFold (p : Particle) (steps : List (PVector × UpdEnv)) : Particle :=
  steps.foldl (fun q s => shellFrame q s.1 s.2) p

/-- Legacy-version particle (`fireworks.js`); the unused `density` placeholder
is not modelled. -/
structure OldParticle where
  pos : PVector
  vel : PVector
  acc : PVector
  alpha : ℚ
  size : ℚ
  lifespan : ℚ
  fluid : Bool
  pressure : ℚ
  trail : List PVector
deriving DecidableEq

/-- Legacy `Particle` constructor: `new Particle(pos, vel, col, isExplosion)`. -/
def OldParticle.create (pos vel : PVector) (isExplosion : Bool) (sizeU lifeU : ℚ) : OldParticle :=
  { pos := pos, vel := vel, acc := PVector.mk 0 0, alpha := 255,
    size := if isExplosion then rand 2 5 sizeU else 4,
    lifespan := rand (4/5) (6/5) lifeU,
    fluid := false, pressure := 0, trail := [] }

/-- Legacy trail update: push, shift beyond 10 entries. -/
def oldTrailStep (tr : List PVector) (pos : PVector) : List PVector :=
  let t1 := tr ++ [pos]
  if 10 < t1.length then t1.drop 1 else t1

/-- Legacy `Particle.update`: optional fluid behaviour (viscosity damping plus
a pressure force that is always zero), then `vel += acc; pos += vel;
acc *= 0; alpha -= deltaTime * 0.5` — note: no `dt` scaling anywhere. -/
def OldParticle.update (p : OldParticle) (deltaTime : ℚ) (r2 : PVector) : OldParticle :=
  let p1 := if p.fluid then
      { p with vel := (p.vel.smul (97/100)).add (r2.smul (p.pressure * (1/100))) }
    else p
  let vel1 := p1.vel.add p1.acc
  let pos1 := p1.pos.add vel1
  { p1 with
    vel := vel1,
    pos := pos1,
    acc := PVector.mk 0 0,
    alpha := p1.alpha - deltaTime * (1/2),
    trail := oldTrailStep p1.trail pos1 }

def OldParticle.enableFluidBehavior (p : OldParticle) : OldParticle :=
  { p with fluid := true, pressure := 0 }

/-- Legacy configuration record. -/
structure OldConfig where
  launchFrequency : ℚ := 1/2
  explosionSize : ℚ := 300
  particleCount : ℕ := 2000
  turbulence : ℚ := 4/5
  wind : ℚ := 1/5
  gravity : ℚ := 2/25
  physicsAccuracy : ℕ := 3
  autoLaunch : Bool := true
  particleType : String := "QUANTUM"
deriving DecidableEq

/-- Randomness consumed by the legacy explosion creators.  Angle sampling and
in-plane rotation are modelled by the unit-direction stream `dir`; `sphere`
carries the canvas-plane projection of `random3D` draws (`magSq ≤ 1`). -/
structure OldDraws where
  dir : ℕ → PVector := fun _ => PVector.mk 1 0
  sphere : ℕ → PVector := fun _ => PVector.mk 1 0
  magU : ℕ → ℚ := fun _ => 0
  sizeU : ℕ → ℚ := fun _ => 0
  lifeU : ℕ → ℚ := fun _ => 0

/-- Legacy `createParticle`: the particle starts at the shell position with
half the generated force as velocity; fluid behaviour per config. -/
def OldFirework.createParticle (cfg : OldConfig) (shellPos force : PVector)
    (sizeU lifeU : ℚ) : OldParticle :=
  let p := OldParticle.create shellPos (force.smul (1/2)) true sizeU lifeU
  if cfg.particleType = "FLUID" then p.enableFluidBehavior else p

/-- Legacy `createPeony`: the angle-stepped loop makes `particleCount`
particles (modelled by index, directions drawn from `dir`). -/
def OldFirework.createPeony (cfg : OldConfig) (shellPos : PVector) (d : OldDraws) : List OldParticle :=
  (List.range cfg.particleCount).map (fun i =>
    OldFirework.createParticle cfg shellPos
      ((d.dir i).smul (rand (cfg.explosionSize * (4/5)) cfg.explosionSize (d.magU i)))
      (d.sizeU i) (d.lifeU i))

/-- Legacy `createChrysanthemum` (`force.z *= 0.2` only touches the unmodelled
z component). -/
def OldFirework.createChrysanthemum (cfg : OldConfig) (shellPos : PVector) (d : OldDraws) : List OldParticle :=
  (List.range cfg.particleCount).map (fun i =>
    OldFirework.createParticle cfg shellPos
      ((d.sphere i).smul (rand 0 (cfg.explosionSize * (1/2)) (d.magU i)))
      (d.sizeU i) (d.lifeU i))

/-- Legacy `createPalm` (cone angle and rotation folded into the drawn unit
direction). -/
def OldFirework.createPalm (cfg : OldConfig) (shellPos : PVector) (d : OldDraws) : List OldParticle :=
  (List.range cfg.particleCount).map (fun i =>
    OldFirework.createParticle cfg shellPos
      ((d.dir i).smul (rand (cfg.explosionSize * (1/2)) cfg.explosionSize (d.magU i)))
      (d.sizeU i) (d.lifeU i))

/-- Legacy `createRandom`. -/
def OldFirework.createRandom (cfg : OldConfig) (shellPos : PVector) (d : OldDraws) : List OldParticle :=
  (List.range cfg.particleCount).map (fun i =>
    OldFirework.createParticle cfg shellPos
      ((d.sphere i).smul (rand 0 cfg.explosionSize (d.magU i)))
      (d.sizeU i) (d.lifeU i))

/-- The legacy pattern table `explosionPatterns`: a lookup with NO default
entry.  An unrecognized tag finds nothing. -/
inductive OldPattern where
  | peony
  | chrysanthemum
  | palm
  | rnd
deriving DecidableEq

def oldExplosionPatterns (typ : String) : Option OldPattern :=
  if typ = "PEONY" then some OldPattern.peony
  else if typ = "CHRYSANTHEMUM" then some OldPattern.chrysanthemum
  else if typ = "PALM" then some OldPattern.palm
  else if typ = "RANDOM" then some OldPattern.rnd
  else none

/-- Legacy `Firework.explode`: `explosionPatterns[this.type].call(this)`.
A missing entry is a JS `TypeError` (call of undefined), modelled as an error
result; a found entry runs its creator. -/
def OldFirework.explode (typ : String) (cfg : OldConfig) (shellPos : PVector)
    (d : OldDraws) : Except String (List OldParticle) :=
  match oldExplosionPatterns typ with
  | none => Except.error "TypeError: call of undefined pattern entry"
  | some OldPattern.peony => Except.ok (OldFirework.createPeony cfg shellPos d)
  | some OldPattern.chrysanthemum => Except.ok (OldFirework.createChrysanthemum cfg shellPos d)
  | some OldPattern.palm => Except.ok (OldFirework.createPalm cfg shellPos d)
  | some OldPattern.rnd => Except.ok (OldFirework.createRandom cfg shellPos d)

/-- Legacy `Firework`: it owns its burst particles. -/
structure OldFirework where
  pos : PVector
  vel : PVector
  particles : List OldParticle
  typ : String
  lifecycle : Lifecycle
  shell : OldParticle
deriving DecidableEq

/-- Legacy `Firework` constructor (plus `initShell`). -/
def OldFirework.init (pos vel : PVector) (typ : String) (shellLifeU : ℚ) : OldFirework :=
  { pos := pos, vel := vel, particles := [], typ := typ, lifecycle := Lifecycle.ASCENT,
    shell := OldParticle.create pos vel false 0 shellLifeU }

/-- `physicsAccuracy` iterations of the legacy particle update. -/
def oldIter (k : ℕ) (deltaTime : ℚ) (r2 : PVector) (p : OldParticle) : OldParticle :=
  match k with
  | 0 => p
  | Nat.succ k2 => oldIter k2 deltaTime r2 (p.update deltaTime r2)

/-- Legacy `Firework.update`: while ascending, push gravity into the shell and
update it; at `vel.y >= 0` explode (which may fail on an unknown type) and move
to EXPLOSION; in every case run `physicsAccuracy` updates on the owned
particles.  The boolean records whether `explode()` ran. -/
def OldFirework.update (f : OldFirework) (cfg : OldConfig) (d : OldDraws)
    (deltaTime : ℚ) (r2 : PVector) : Except String (OldFirework × Bool) :=
  if f.lifecycle = Lifecycle.ASCENT then
    let shell1 := ({ f.shell with acc := f.shell.acc.add (PVector.mk 0 cfg.gravity) }).update
      deltaTime r2
    if 0 ≤ shell1.vel.y then
      match OldFirework.explode f.typ cfg shell1.pos d with
      | Except.error msg => Except.error msg
      | Except.ok newps =>
        Except.ok ({ f with
          shell := shell1,
          lifecycle := Lifecycle.EXPLOSION,
          particles := (f.particles ++ newps).map (oldIter cfg.physicsAccuracy deltaTime r2) },
          true)
    else
      Except.ok ({ f with
        shell := shell1,
        particles := f.particles.map (oldIter cfg.physicsAccuracy deltaTime r2) }, false)
  else
    Except.ok ({ f with particles := f.particles.map (oldIter cfg.physicsAccuracy deltaTime r2) },
      false)

/-- Legacy `get done()`: exploded AND every owned particle fully faded. -/
def OldFirework.done (f : OldFirework) : Bool :=
  (decide (f.lifecycle = Lifecycle.EXPLOSION)) && f.particles.all (fun p => decide (p.alpha ≤ 0))

/-- A sequence of legacy `Firework.update` calls, counting `explode()`
invocations; an explosion failure aborts the run. -/
def oldRunFw (cfg : OldConfig) (d : OldDraws) : OldFirework → List (ℚ × PVector) →
    Except String (OldFirework × ℕ)
  | f, [] => Except.ok (f, 0)
  | f, s :: rest =>
    match OldFirework.update f cfg d s.1 s.2 with
    | Except.error msg => Except.error msg
    | Except.ok fb =>
      match oldRunFw cfg d fb.1 rest with
      | Except.error msg => Except.error msg
      | Except.ok fn => Except.ok (fn.1, (if fb.2 then 1 else 0) + fn.2)

/-! ## Concrete inputs used by counterexamples and witnesses -/

/-- A generic filler particle. -/
def cexFiller : Particle :=
  Particle.create (PVector.mk 0 0) (PVector.mk 0 0) 255 3 Role.EXPLOSION {} 0 2

/-- A configuration whose global cap is already filled by one particle. -/
def cexC1cfg : SystemConfig := { maxTotalParticles := 1 }

/-- A small-cap configuration for the C1 witness. -/
def c1wCfg : SystemConfig := { maxTotalParticles := 2 }

/-- A fading particle for the C2 witness. -/
def c2wP : Particle :=
  { Particle.create (PVector.mk 0 0) (PVector.mk 0 0) 255 3 Role.EXPLOSION {} 0 2 with
    isFading := true,
    fadeStartAlpha := 255,
    fadeStartTime := 0,
    fadeDuration := 1/2 }

def c2wE1 : UpdEnv :=
  { t := 1/4, deltaTime := 1000, particlesLen := 0, maxTotal := 30000, crackleU := 0,
    noiseDir := PVector.mk 1 0 }

def c2wE2 : UpdEnv := { c2wE1 with t := 2 }

/-- A mini-shell with delay 1/2 for the C4 witness. -/
def c4wP : Particle :=
  { Particle.create (PVector.mk 0 0) (PVector.mk 0 0) 200 3 Role.MINI_SHELL {} 0 2 with
    delay := 1/2 }

def c4wE : UpdEnv := { c2wE1 with t := 1 }

/-- An EXPLOSION particle with pending acceleration (1, 0) for C5. -/
def cexC5p : Particle :=
  { Particle.create (PVector.mk 0 0) (PVector.mk 0 0) 255 3 Role.EXPLOSION {} 0 1 with
    acc := PVector.mk 1 0 }

/-- An update environment whose `deltaTime` (1000 ms) falls back to dt = 1/60. -/
def cexC5e : UpdEnv :=
  { t := 0, deltaTime := 1000, particlesLen := 0, maxTotal := 30000, crackleU := 0,
    noiseDir := PVector.mk 1 0 }

def cexC5oldp : OldParticle := OldParticle.create (PVector.mk 0 0) (PVector.mk 0 0) true 0 0

/-- Configuration of the C6 counterexample: one particle, explosionSize 400. -/
def cexC6cfg : SystemConfig := { particleCount := 1, explosionSize := 400 }

/-- Draws of the C6 counterexample: direction (-1, 0), magnitude draw 0
(so the magnitude is exactly the lower bound 32). -/
def cexC6draws : ExplodeDraws := { dir := fun _ => PVector.mk (-1) 0 }

/-- Configuration of the C6 witness: two particles per burst. -/
def c6wCfg : SystemConfig := { particleCount := 2, explosionSize := 400 }

/-- A shell particle for the C7 witness. -/
def c7wP : Particle :=
  Particle.create (PVector.mk 0 0) (PVector.mk 0 (-20)) 200 4 Role.SHELL {} 0 2

/-- A legacy firework that has exploded while a spawned particle is still
alive (alpha 255): its `done` is false. -/
def cexC9old : OldFirework :=
  { OldFirework.init (PVector.mk 0 0) (PVector.mk 0 0) "PEONY" 0 with
    lifecycle := Lifecycle.EXPLOSION,
    particles := [OldParticle.create (PVector.mk 0 0) (PVector.mk 0 0) true 0 0] }

/-! ## Shared lemmas -/

lemma update_ne_mini (p : Particle) (e : UpdEnv) (h : ¬ p.role = Role.MINI_SHELL) :
    p.update e = (p.updateMain e, false) := by
  unfold Particle.update
  rw [if_neg (fun hc => h hc.1), if_neg (fun hc => h hc.1)]

lemma update_mini_trigger (p : Particle) (e : UpdEnv) (h : p.role = Role.MINI_SHELL)
    (hd : 0 < p.delay) (ht : p.delay ≤ e.t - p.timeCreated) :
    p.update e = ({ p with alpha := 0, delay := 0 }, true) := by
  unfold Particle.update
  rw [if_pos ⟨h, hd, ht⟩]

lemma update_mini_spent (p : Particle) (e : UpdEnv) (h : p.role = Role.MINI_SHELL)
    (hd : p.delay ≤ 0) :
    p.update e = ({ p with alpha := 0 }, false) := by
  unfold Particle.update
  rw [if_neg (fun hc => absurd hc.2.1 (not_lt.mpr hd)), if_pos ⟨h, hd⟩]

lemma update_mini_pending (p : Particle) (e : UpdEnv) (h : p.role = Role.MINI_SHELL)
    (hd : 0 < p.delay) (ht : ¬ p.delay ≤ e.t - p.timeCreated) :
    p.update e = (p.updateMain e, false) := by
  unfold Particle.update
  rw [if_neg (fun hc => ht hc.2.2), if_neg (fun hc => absurd hd (not_lt.mpr hc.2))]

lemma updateMain_role (p : Particle) (e : UpdEnv) : (p.updateMain e).role = p.role := rfl

lemma updateMain_delay (p : Particle) (e : UpdEnv) : (p.updateMain e).delay = p.delay := rfl

lemma updateMain_timeCreated (p : Particle) (e : UpdEnv) :
    (p.updateMain e).timeCreated = p.timeCreated := rfl

lemma updateMain_alpha (p : Particle) (e : UpdEnv) :
    (p.updateMain e).alpha = p.alphaStep e.t := rfl

lemma updateMain_isFading (p : Particle) (e : UpdEnv) :
    (p.updateMain e).isFading = p.isFadingStep e.t := rfl

lemma updateMain_fadeStartTime (p : Particle) (e : UpdEnv) :
    (p.updateMain e).fadeStartTime = p.fadeStartTimeStep e.t := rfl

lemma updateMain_fadeStartAlpha (p : Particle) (e : UpdEnv) :
    (p.updateMain e).fadeStartAlpha = p.fadeStartAlphaStep e.t := rfl

lemma updateMain_fadeDuration (p : Particle) (e : UpdEnv) :
    (p.updateMain e).fadeDuration = p.fadeDurationStep e.t := rfl

lemma explodeMultiBreak_length (cfg : SystemConfig) (pos inh : PVector) (bf : ℚ)
    (d : ExplodeDraws) (t : ℚ) (ps : List Particle) :
    (explodeMultiBreak cfg pos inh bf d t ps).length
      = ps.length + jsFloorNat (rand 2 5 d.breaksU) := by
  simp [explodeMultiBreak, List.length_append, List.length_map, List.length_range]

lemma spawnCrackleLoop_length_le (maxTotal : ℕ) (mk : ℕ → Particle) :
    ∀ k i ps, ps.length ≤ maxTotal →
      (spawnCrackleLoop maxTotal mk i k ps).length ≤ maxTotal := by
  intro k
  induction k with
  | zero => intro i ps h; simpa [spawnCrackleLoop] using h
  | succ k ih =>
    intro i ps h
    by_cases hc : maxTotal ≤ ps.length
    · simpa [spawnCrackleLoop, hc] using h
    · have hlt : ps.length < maxTotal := lt_of_not_le hc
      simp only [spawnCrackleLoop, if_neg hc]
      exact ih (i + 1) (ps ++ [mk i]) (by simp [List.length_append]; omega)

lemma spawnCrackleLoop_atcap (maxTotal : ℕ) (mk : ℕ → Particle) :
    ∀ k i ps, maxTotal ≤ ps.length → spawnCrackleLoop maxTotal mk i k ps = ps := by
  intro k
  cases k with
  | zero => intro i ps _; rfl
  | succ k => intro i ps h; simp [spawnCrackleLoop, h]

/-- Claim C1 (amended): the launch, `createParticle` and crackle spawn paths
never push the live particle count beyond `maxTotalParticles`, and a spawn
request on those paths made at the cap is a no-op that leaves the particle
list unchanged; the MULTI_BREAK mini-shell path, by contrast, performs no cap
check — it always appends its `floor(random(2,5))` mini-shells (between 2 and
4 of them), so it can push the count past the cap. -/
theorem c1_particle_cap_amended (cfg : SystemConfig) (ps : List Particle)
    (hcap : ps.length ≤ cfg.maxTotalParticles) :
    (∀ pos vel t ld,
      (FireworkSystem.launch cfg pos vel t ld ps).length ≤ cfg.maxTotalParticles ∧
      (cfg.maxTotalParticles ≤ ps.length → FireworkSystem.launch cfg pos vel t ld ps = ps)) ∧
    (∀ t a,
      (Firework.createParticle cfg t a ps).length ≤ cfg.maxTotalParticles ∧
      (cfg.maxTotalParticles ≤ ps.length → Firework.createParticle cfg t a ps = ps)) ∧
    (∀ p d t,
      (Particle.spawnCrackle p cfg.maxTotalParticles d t ps).length ≤ cfg.maxTotalParticles ∧
      (cfg.maxTotalParticles ≤ ps.length →
        Particle.spawnCrackle p cfg.maxTotalParticles d t ps = ps)) ∧
    (∀ pos inh bf d t,
      (explodeMultiBreak cfg pos inh bf d t ps).length
        = ps.length + jsFloorNat (rand 2 5 d.breaksU)) ∧
    (∀ u : ℚ, 0 ≤ u → u < 1 →
      2 ≤ jsFloorNat (rand 2 5 u) ∧ jsFloorNat (rand 2 5 u) ≤ 4) := by
  refine ⟨?_, ?_, ?_, ?_, ?_⟩
  · intro pos vel t ld
    constructor
    · by_cases hc : cfg.maxTotalParticles ≤ ps.length
      · simpa [FireworkSystem.launch, hc] using hcap
      · have hlt : ps.length < cfg.maxTotalParticles := lt_of_not_le hc
        simp only [FireworkSystem.launch, if_neg hc]
        simp [List.length_append]; omega
    · intro hc; simp [FireworkSystem.launch, hc]
  · intro t a
    constructor
    · by_cases hc : ps.length < cfg.maxTotalParticles
      · simp only [Firework.createParticle, if_pos hc]
        simp [List.length_append]; omega
      · simpa [Firework.createParticle, hc] using hcap
    · intro hc
      simp [Firework.createParticle, not_lt.mpr hc]
  · intro p d t
    exact ⟨spawnCrackleLoop_length_le _ _ _ _ _ hcap,
      fun hc => spawnCrackleLoop_atcap _ _ _ _ _ hc⟩
  · intro pos inh bf d t
    exact explodeMultiBreak_length cfg pos inh bf d t ps
  · intro u h0 h1
    have hlo : (2 : ℤ) ≤ Int.floor (rand 2 5 u) := by
      rw [Int.le_floor]; unfold rand; push_cast; nlinarith
    have hhi : Int.floor (rand 2 5 u) < 5 := by
      rw [Int.floor_lt]; unfold rand; push_cast; nlinarith
    unfold jsFloorNat
    omega

/-- Claim C1, counterexample: with the cap already reached (1 particle, cap 1),
a MULTI_BREAK explosion still appends its mini-shells, leaving 3 live
particles — the spawn request at the cap is not a no-op and the count exceeds
the configured maximum. -/
theorem c1_particle_cap_counterexample :
    cexC1cfg.maxTotalParticles ≤ ([cexFiller] : List Particle).length ∧
    (explodeMultiBreak cexC1cfg (PVector.mk 0 0) (PVector.mk 0 0) 40 {} 0 [cexFiller]).length = 3 ∧
    cexC1cfg.maxTotalParticles
      < (explodeMultiBreak cexC1cfg (PVector.mk 0 0) (PVector.mk 0 0) 40 {} 0 [cexFiller]).length := by
  have hbreaks : jsFloorNat (rand 2 5 (({} : ExplodeDraws).breaksU)) = 2 := by
    have h2 : rand 2 5 (({} : ExplodeDraws).breaksU) = 2 := by
      show rand 2 5 0 = 2
      unfold rand; ring
    rw [h2]
    norm_num [jsFloorNat]
    decide
  have hlen := explodeMultiBreak_length cexC1cfg (PVector.mk 0 0) (PVector.mk 0 0) 40 {} 0
    [cexFiller]
  rw [hbreaks] at hlen
  refine ⟨by decide, by rw [hlen]; decide, by rw [hlen]; decide⟩

/-- Claim C1, witness for the amended theorem at a concrete configuration. -/
theorem c1_particle_cap_witness :
    ([cexFiller] : List Particle).length ≤ c1wCfg.maxTotalParticles ∧
    (∀ pos vel t ld,
      (FireworkSystem.launch c1wCfg pos vel t ld [cexFiller]).length ≤ c1wCfg.maxTotalParticles ∧
      (c1wCfg.maxTotalParticles ≤ ([cexFiller] : List Particle).length →
        FireworkSystem.launch c1wCfg pos vel t ld [cexFiller] = [cexFiller])) :=
  ⟨by decide, (c1_particle_cap_amended c1wCfg [cexFiller] (by decide)).1⟩

/-- Claim C9 (amended): in the main version `done` holds exactly when the
lifecycle is EXPLOSION, independent of any particle; in the legacy version
`done` additionally requires every particle the firework owns to have faded
to `alpha ≤ 0`, so there it does not hold the frame of explosion while burst
particles are still alive. -/
theorem c9_done_amended (fw : Firework) (f : OldFirework) :
    (fw.done = true ↔ fw.lifecycle = Lifecycle.EXPLOSION) ∧
    (f.done = true ↔ (f.lifecycle = Lifecycle.EXPLOSION ∧ ∀ p ∈ f.particles, p.alpha ≤ 0)) := by
  constructor
  · simp [Firework.done]
  · simp [OldFirework.done, List.all_eq_true]

/-- Claim C9, counterexample: a legacy firework in the EXPLOSION state owning
one live particle (alpha 255) has `done = false`, although it has exploded —
`done` is not independent of the spawned particles in `src/fireworks.js`;
the main version's `done` is true the frame the lifecycle reaches EXPLOSION. -/
theorem c9_done_counterexample :
    cexC9old.lifecycle = Lifecycle.EXPLOSION ∧
    cexC9old.done = false ∧
    ((Firework.init "PEONY" 100).update
        { shellVelY := 0, shellPosY := 0, shellInParticles := true }).1.done = true :=
  of_decide_eq_true (by with_unfolding_all rfl)

lemma fwUpdateAscend_not_explodable (fw : Firework) (o : FwObs)
    (h : ¬ (fw.lifecycle = Lifecycle.ASCENT
      ∧ (-(1/2) ≤ o.shellVelY ∨ o.shellPosY ≤ fw.explosionAltitude)
      ∧ fw.hasExploded = false)) :
    fw.updateAscend o = (fw, false) := by
  unfold Firework.updateAscend
  rw [if_neg h]

lemma fwUpdate_hasExploded_mono (fw : Firework) (o : FwObs) (h : fw.hasExploded = true) :
    (fw.update o).1.hasExploded = true ∧ (fw.update o).2 = false := by
  have ha : fw.updateAscend o = (fw, false) :=
    fwUpdateAscend_not_explodable fw o (fun hc => by rw [h] at hc; exact absurd hc.2.2 (by simp))
  unfold Firework.update
  rw [ha]
  by_cases h2 : fw.lifecycle = Lifecycle.ASCENT ∧ o.shellInParticles = false
  · rw [if_pos h2]; exact ⟨rfl, rfl⟩
  · rw [if_neg h2]; exact ⟨h, rfl⟩

lemma fwUpdate_flag_explodes (fw : Firework) (o : FwObs) (h : (fw.update o).2 = true) :
    (fw.update o).1.hasExploded = true ∧ fw.hasExploded = false := by
  by_cases hc : fw.lifecycle = Lifecycle.ASCENT
      ∧ (-(1/2) ≤ o.shellVelY ∨ o.shellPosY ≤ fw.explosionAltitude)
      ∧ fw.hasExploded = false
  · have ha : fw.updateAscend o
        = ({ fw with lifecycle := Lifecycle.EXPLOSION, hasExploded := true }, true) := by
      unfold Firework.updateAscend; rw [if_pos hc]
    constructor
    · unfold Firework.update
      rw [ha]
      by_cases h2 : ({ fw with lifecycle := Lifecycle.EXPLOSION, hasExploded := true } : Firework).lifecycle = Lifecycle.ASCENT ∧ o.shellInParticles = false
      · rw [if_pos h2]
      · rw [if_neg h2]
    · exact hc.2.2
  · have ha : fw.updateAscend o = (fw, false) := fwUpdateAscend_not_explodable fw o hc
    unfold Firework.update at h
    rw [ha] at h
    by_cases h2 : fw.lifecycle = Lifecycle.ASCENT ∧ o.shellInParticles = false
    · rw [if_pos h2] at h; exact absurd h (by simp)
    · rw [if_neg h2] at h; exact absurd h (by simp)

lemma runFw_exploded_zero (os : List FwObs) :
    ∀ fw : Firework, fw.hasExploded = true → (runFwUpdates fw os).2 = 0 := by
  induction os with
  | nil => intro fw _; rfl
  | cons o os ih =>
    intro fw h
    obtain ⟨h1, h2⟩ := fwUpdate_hasExploded_mono fw o h
    simp only [runFwUpdates, h2, if_false]
    simpa using ih _ h1

lemma runFw_le_one : ∀ (os : List FwObs) (fw : Firework), (runFwUpdates fw os).2 ≤ 1 := by
  intro os
  induction os with
  | nil => intro fw; simp [runFwUpdates]
  | cons o os ih =>
    intro fw
    by_cases hf : (fw.update o).2 = true
    · obtain ⟨h1, _⟩ := fwUpdate_flag_explodes fw o hf
      have hz := runFw_exploded_zero os _ h1
      simp [runFwUpdates, hf, hz]
    · have : (fw.update o).2 = false := by simpa using hf
      simp only [runFwUpdates, this, if_false]
      simpa using ih ((fw.update o).1)

lemma fwUpdate_exploded_fixed (fw : Firework) (o : FwObs)
    (h : fw.lifecycle = Lifecycle.EXPLOSION) :
    fw.update o = (fw, false) := by
  have ha : fw.updateAscend o = (fw, false) :=
    fwUpdateAscend_not_explodable fw o (fun hc => by rw [h] at hc; exact absurd hc.1 (by simp))
  unfold Firework.update
  rw [ha]
  rw [if_neg (fun hc => by rw [h] at hc; exact absurd hc.1 (by simp))]

lemma oldUpdate_not_ascent (f : OldFirework) (cfg : OldConfig) (d : OldDraws)
    (dt : ℚ) (r2 : PVector) (h : ¬ f.lifecycle = Lifecycle.ASCENT) :
    OldFirework.update f cfg d dt r2
      = Except.ok ({ f with particles := f.particles.map (oldIter cfg.physicsAccuracy dt r2) },
        false) := by
  unfold OldFirework.update
  rw [if_neg h]

lemma oldRunFw_nil (cfg : OldConfig) (d : OldDraws) (f : OldFirework) :
    oldRunFw cfg d f [] = Except.ok (f, 0) := rfl

lemma oldRunFw_cons (cfg : OldConfig) (d : OldDraws) (f : OldFirework)
    (s : ℚ × PVector) (rest : List (ℚ × PVector)) :
    oldRunFw cfg d f (s :: rest)
      = match OldFirework.update f cfg d s.1 s.2 with
        | Except.error msg => Except.error msg
        | Except.ok fb =>
          match oldRunFw cfg d fb.1 rest with
          | Except.error msg => Except.error msg
          | Except.ok fn => Except.ok (fn.1, (if fb.2 then 1 else 0) + fn.2) := rfl

lemma oldUpdate_flag_true (f : OldFirework) (cfg : OldConfig) (d : OldDraws)
    (dt : ℚ) (r2 : PVector) (f1 : OldFirework)
    (h : OldFirework.update f cfg d dt r2 = Except.ok (f1, true)) :
    f1.lifecycle = Lifecycle.EXPLOSION := by
  by_cases ha : f.lifecycle = Lifecycle.ASCENT
  · unfold OldFirework.update at h
    rw [if_pos ha] at h
    by_cases hv : 0 ≤ (({ f.shell with
        acc := f.shell.acc.add (PVector.mk 0 cfg.gravity) }).update dt r2).vel.y
    · rw [if_pos hv] at h
      cases he : OldFirework.explode f.typ cfg
          (({ f.shell with acc := f.shell.acc.add (PVector.mk 0 cfg.gravity) }).update
            dt r2).pos d with
      | error msg => rw [he] at h; exact absurd h (by simp)
      | ok newps =>
        rw [he] at h
        have hp := Except.ok.inj h
        have h1 : f1.lifecycle = Lifecycle.EXPLOSION := by
          have := congrArg (fun z => z.1.lifecycle) hp
          simpa using this.symm
        exact h1
    · rw [if_neg hv] at h
      have hp := Except.ok.inj h
      have h2 := congrArg Prod.snd hp
      simp at h2
  · rw [oldUpdate_not_ascent f cfg d dt r2 ha] at h
    have hp := Except.ok.inj h
    have h2 := congrArg Prod.snd hp
    simp at h2

lemma oldUpdate_exploded (f : OldFirework) (cfg : OldConfig) (d : OldDraws)
    (dt : ℚ) (r2 : PVector) (h : f.lifecycle = Lifecycle.EXPLOSION)
    (g : OldFirework) (b : Bool)
    (hok : OldFirework.update f cfg d dt r2 = Except.ok (g, b)) :
    g.lifecycle = Lifecycle.EXPLOSION ∧ b = false := by
  rw [oldUpdate_not_ascent f cfg d dt r2 (by rw [h]; simp)] at hok
  have hp := Except.ok.inj hok
  constructor
  · have h1 := congrArg (fun z => z.1.lifecycle) hp
    simpa [h] using h1.symm
  · have h2 := congrArg Prod.snd hp
    simpa using h2.symm

lemma oldRunFw_exploded_zero (cfg : OldConfig) (d : OldDraws) :
    ∀ (dts : List (ℚ × PVector)) (f : OldFirework), f.lifecycle = Lifecycle.EXPLOSION →
      ∀ g n, oldRunFw cfg d f dts = Except.ok (g, n) → n = 0 := by
  intro dts
  induction dts with
  | nil =>
    intro f _ g n hok
    rw [oldRunFw_nil] at hok
    have hp := Except.ok.inj hok
    have h2 := congrArg Prod.snd hp
    simpa using h2.symm
  | cons s rest ih =>
    intro f hf g n hok
    rw [oldRunFw_cons] at hok
    cases hu : OldFirework.update f cfg d s.1 s.2 with
    | error msg => rw [hu] at hok; exact absurd hok (by simp)
    | ok fb =>
      rw [hu] at hok
      dsimp only at hok
      obtain ⟨hl, hb⟩ := oldUpdate_exploded f cfg d s.1 s.2 hf fb.1 fb.2 (by rw [hu])
      cases hr : oldRunFw cfg d fb.1 rest with
      | error msg => rw [hr] at hok; exact absurd hok (by simp)
      | ok fn =>
        rw [hr] at hok
        dsimp only at hok
        have hp := Except.ok.inj hok
        have h2 := congrArg Prod.snd hp
        simp only [hb] at h2
        simp at h2
        have hz := ih fb.1 hl fn.1 fn.2 (by rw [hr])
        omega

lemma oldRunFw_le_one (cfg : OldConfig) (d : OldDraws) :
    ∀ (dts : List (ℚ × PVector)) (f g : OldFirework) (n : ℕ),
      oldRunFw cfg d f dts = Except.ok (g, n) → n ≤ 1 := by
  intro dts
  induction dts with
  | nil =>
    intro f g n hok
    rw [oldRunFw_nil] at hok
    have hp := Except.ok.inj hok
    have h2 := congrArg Prod.snd hp
    simp at h2
    omega
  | cons s rest ih =>
    intro f g n hok
    rw [oldRunFw_cons] at hok
    cases hu : OldFirework.update f cfg d s.1 s.2 with
    | error msg => rw [hu] at hok; exact absurd hok (by simp)
    | ok fb =>
      rw [hu] at hok
      dsimp only at hok
      cases hr : oldRunFw cfg d fb.1 rest with
      | error msg => rw [hr] at hok; exact absurd hok (by simp)
      | ok fn =>
        rw [hr] at hok
        dsimp only at hok
        have hp := Except.ok.inj hok
        have h2 := congrArg Prod.snd hp
        simp at h2
        by_cases hbt : fb.2 = true
        · have hfb : fb = (fb.1, true) := by rw [← hbt]
          have hl := oldUpdate_flag_true f cfg d s.1 s.2 fb.1 (by rw [hu, hfb])
          have hz := oldRunFw_exploded_zero cfg d rest fb.1 hl fn.1 fn.2 (by rw [hr])
          simp only [hbt] at h2
          simp at h2
          omega
        · have hbf : fb.2 = false := by simpa using hbt
          have := ih fb.1 fn.1 fn.2 (by rw [hr])
          simp only [hbf] at h2
          simp at h2
          omega

/-- Claim C3: in the main version a firework starting in ASCENT triggers
`explode()` at most once over any sequence of updates, a firework in the
EXPLOSION state is a fixed point of `update` (so the lifecycle never
transitions back), and in the legacy version any run of updates of a freshly
constructed firework also calls `explode` at most once. -/
theorem c3_explode_once (typ : String) (alt : ℚ) (os : List FwObs)
    (cfg : OldConfig) (d : OldDraws) (opos ovel : PVector) (otyp : String) (olife : ℚ)
    (steps : List (ℚ × PVector)) :
    (runFwUpdates (Firework.init typ alt) os).2 ≤ 1 ∧
    (∀ (fw : Firework) (o : FwObs), fw.lifecycle = Lifecycle.EXPLOSION →
      fw.update o = (fw, false)) ∧
    (∀ g n, oldRunFw cfg d (OldFirework.init opos ovel otyp olife) steps = Except.ok (g, n) →
      n ≤ 1) := by
  refine ⟨runFw_le_one os _, fun fw o h => fwUpdate_exploded_fixed fw o h, ?_⟩
  intro g n hok
  exact oldRunFw_le_one cfg d steps _ g n hok

lemma capLoop_mem (cfg : SystemConfig) (t : ℚ) (mk : ℕ → CPArgs) :
    ∀ k i ps q, q ∈ capLoop cfg t mk i k ps → q ∈ ps ∨ ∃ j, q = mkCreated cfg t (mk j) := by
  intro k
  induction k with
  | zero => intro i ps q hq; exact Or.inl (by simpa [capLoop] using hq)
  | succ k ih =>
    intro i ps q hq
    by_cases hc : cfg.maxTotalParticles ≤ ps.length
    · simp only [capLoop, if_pos hc] at hq
      exact Or.inl hq
    · simp only [capLoop, if_neg hc] at hq
      rcases ih (i + 1) (Firework.createParticle cfg t (mk i) ps) q hq with h | h
      · unfold Firework.createParticle at h
        by_cases h2 : ps.length < cfg.maxTotalParticles
        · rw [if_pos h2] at h
          rcases List.mem_append.mp h with h3 | h3
          · exact Or.inl h3
          · exact Or.inr ⟨i, by simpa using h3⟩
        · rw [if_neg h2] at h
          exact Or.inl h
      · exact Or.inr h

lemma validSubTypes_mem (k : ℕ) :
    ∃ s, pickList validSubTypes k = some s ∧ s ∈ validSubTypes := by
  have hlen : validSubTypes.length = 6 := rfl
  have hk : k % validSubTypes.length < validSubTypes.length := Nat.mod_lt _ (by rw [hlen]; omega)
  refine ⟨validSubTypes.get ⟨k % validSubTypes.length, hk⟩, ?_, List.get_mem _ _ _⟩
  unfold pickList
  exact List.get?_eq_get hk

lemma validSubTypes_not_random : ∀ s ∈ validSubTypes, s ≠ "RANDOM" ∧ s ≠ "MULTI_BREAK" := by
  decide

/-- Claim C10: every MULTI_BREAK mini-shell gets a `subType` drawn from the
filtered list (so never RANDOM and never MULTI_BREAK), and a secondary
explosion only creates EXPLOSION, STROBE or CRACKLE_SOURCE particles — never
another MINI_SHELL — so the multi-break cascade has depth at most two. -/
theorem c10_cascade_depth (cfg : SystemConfig) (pos inherited : PVector) (baseForce : ℚ)
    (d : ExplodeDraws) (sd : SecDraws) (t : ℚ) (ps : List Particle) (p : Particle) :
    (∀ q ∈ (explodeMultiBreak cfg pos inherited baseForce d t ps).drop ps.length,
      q.role = Role.MINI_SHELL ∧
        ∃ s, q.subType = some s ∧ s ∈ validSubTypes ∧ s ≠ "RANDOM" ∧ s ≠ "MULTI_BREAK") ∧
    (∀ q ∈ p.explodeSecondary cfg sd t ps,
      q ∈ ps ∨ q.role = Role.EXPLOSION ∨ q.role = Role.STROBE ∨ q.role = Role.CRACKLE_SOURCE) ∧
    (∀ q ∈ p.explodeSecondary cfg sd t ps, q ∈ ps ∨ ¬ q.role = Role.MINI_SHELL) := by
  have hsec : ∀ q ∈ p.explodeSecondary cfg sd t ps,
      q ∈ ps ∨ q.role = Role.EXPLOSION ∨ q.role = Role.STROBE ∨ q.role = Role.CRACKLE_SOURCE := by
    intro q hq
    simp only [Particle.explodeSecondary] at hq
    split_ifs at hq with h1 h2
    · rcases capLoop_mem cfg t _ _ _ _ _ hq with h | ⟨j, rfl⟩
      · exact Or.inl h
      · exact Or.inr (Or.inr (Or.inr rfl))
    · rcases capLoop_mem cfg t _ _ _ _ _ hq with h | ⟨j, rfl⟩
      · exact Or.inl h
      · exact Or.inr (Or.inr (Or.inl rfl))
    · rcases capLoop_mem cfg t _ _ _ _ _ hq with h | ⟨j, rfl⟩
      · exact Or.inl h
      · exact Or.inr (Or.inl rfl)
  refine ⟨?_, hsec, ?_⟩
  · intro q hq
    simp only [explodeMultiBreak] at hq
    rw [List.drop_left] at hq
    rcases List.mem_map.mp hq with ⟨i, _, rfl⟩
    refine ⟨rfl, ?_⟩
    obtain ⟨s, hs1, hs2⟩ := validSubTypes_mem (d.miniSubPick i)
    obtain ⟨hr1, hr2⟩ := validSubTypes_not_random s hs2
    exact ⟨s, hs1, hs2, hr1, hr2⟩
  · intro q hq
    rcases hsec q hq with h | h | h | h
    · exact Or.inl h
    · exact Or.inr (by simp [h])
    · exact Or.inr (by simp [h])
    · exact Or.inr (by simp [h])

lemma runUpdates_spent : ∀ (es : List UpdEnv) (p : Particle), p.role = Role.MINI_SHELL →
    p.delay ≤ 0 → (p.runUpdates es).2 = 0 := by
  intro es
  induction es with
  | nil => intro p _ _; rfl
  | cons e es ih =>
    intro p h hd
    have hu := update_mini_spent p e h hd
    simp only [Particle.runUpdates, hu]
    have hrole : ({ p with alpha := 0 } : Particle).role = Role.MINI_SHELL := h
    have hdel : ({ p with alpha := 0 } : Particle).delay ≤ 0 := hd
    simpa using ih _ hrole hdel

lemma runUpdates_mini_count (D tc : ℚ) : ∀ (es : List UpdEnv) (p : Particle),
    p.role = Role.MINI_SHELL → p.delay = D → p.timeCreated = tc → 0 < D →
    (p.runUpdates es).2 = (if es.any (fun e => decide (D ≤ e.t - tc)) then 1 else 0) := by
  intro es
  induction es with
  | nil => intro p _ _ _ _; simp [Particle.runUpdates]
  | cons e es ih =>
    intro p h1 h2 h3 h4
    by_cases ht : D ≤ e.t - tc
    · have hu := update_mini_trigger p e h1 (by rw [h2]; exact h4) (by rw [h2, h3]; exact ht)
      simp only [Particle.runUpdates, hu]
      have hz := runUpdates_spent es ({ p with alpha := 0, delay := 0 })
        (by exact h1) (by simp)
      simp [hz, List.any_cons, ht]
    · have hu := update_mini_pending p e h1 (by rw [h2]; exact h4) (by rw [h2, h3]; exact ht)
      simp only [Particle.runUpdates, hu]
      have hrec := ih (p.updateMain e) (by rw [updateMain_role]; exact h1)
        (by rw [updateMain_delay]; exact h2) (by rw [updateMain_timeCreated]; exact h3) h4
      simp [hrec, List.any_cons, ht]

/-- Claim C4: a mini-shell particle with positive delay D triggers its
secondary explosion exactly once over any run of updates — exactly when some
update's time reaches age ≥ D — and the triggering update forces alpha to 0
and clears the delay, so no later update can trigger again. -/
theorem c4_minishell_once (p : Particle) (es : List UpdEnv)
    (hrole : p.role = Role.MINI_SHELL) (hd : 0 < p.delay) :
    (p.runUpdates es).2
        = (if es.any (fun e => decide (p.delay ≤ e.t - p.timeCreated)) then 1 else 0) ∧
    (∀ e : UpdEnv, p.delay ≤ e.t - p.timeCreated →
      p.update e = ({ p with alpha := 0, delay := 0 }, true)) := by
  constructor
  · exact runUpdates_mini_count p.delay p.timeCreated es p hrole rfl rfl hd
  · intro e he
    exact update_mini_trigger p e hrole hd he

/-- Claim C4, witness: a mini-shell with delay 1/2 updated once at time 1
(age 1 ≥ 1/2) triggers exactly one secondary explosion. -/
theorem c4_minishell_once_witness :
    c4wP.role = Role.MINI_SHELL ∧ 0 < c4wP.delay ∧
    (c4wP.runUpdates [c4wE]).2
      = (if [c4wE].any (fun e => decide (c4wP.delay ≤ e.t - c4wP.timeCreated)) then 1 else 0) :=
  ⟨rfl, of_decide_eq_true (by with_unfolding_all rfl),
    (c4_minishell_once c4wP [c4wE] rfl (of_decide_eq_true (by with_unfolding_all rfl))).1⟩

/-- Claim C5 (amended): one `update` call advances the physics by
`vel += acc` (the acceleration is NOT scaled by dt), `pos += vel*dt` in the
main version (`pos += vel`, unscaled, in the legacy version), and the
acceleration is cleared — stated for non-mini-shell, non-fluid particles. -/
theorem c5_euler_step_amended (p : Particle) (e : UpdEnv) (q : OldParticle)
    (dtc : ℚ) (r2 : PVector)
    (h1 : ¬ p.role = Role.MINI_SHELL) (h2 : fluidActive p = false) (h3 : q.fluid = false) :
    (p.update e).1.vel = p.vel.add p.acc ∧
    (p.update e).1.pos = p.pos.add ((p.vel.add p.acc).smul (dtOf e.deltaTime)) ∧
    (p.update e).1.acc = PVector.mk 0 0 ∧
    (q.update dtc r2).vel = q.vel.add q.acc ∧
    (q.update dtc r2).pos = q.pos.add (q.vel.add q.acc) ∧
    (q.update dtc r2).acc = PVector.mk 0 0 := by
  rw [update_ne_mini p e h1]
  refine ⟨?_, rfl, ?_, ?_, ?_, ?_⟩
  · show p.velStep = p.vel.add p.acc
    simp [Particle.velStep, h2]
  · show p.accStep e = PVector.mk 0 0
    simp [Particle.accStep, h2]
  · simp [OldParticle.update, h3]
  · simp [OldParticle.update, h3]
  · simp [OldParticle.update, h3]

/-- Claim C5, counterexample: a particle with velocity (0,0) and accumulated
acceleration (1,0), updated with dt = 1/60, gets velocity (1,0) — the full
acceleration, not acceleration·dt = (1/60, 0) as the claim states. -/
theorem c5_euler_step_counterexample :
    ¬ (cexC5p.update cexC5e).1.vel
        = cexC5p.vel.add (cexC5p.acc.smul (dtOf cexC5e.deltaTime)) ∧
    (cexC5p.update cexC5e).1.vel = cexC5p.vel.add cexC5p.acc ∧
    (cexC5p.update cexC5e).1.vel = PVector.mk 1 0 ∧
    cexC5p.vel.add (cexC5p.acc.smul (dtOf cexC5e.deltaTime)) = PVector.mk (1/60) 0 :=
  ⟨of_decide_eq_true (by with_unfolding_all rfl),
   of_decide_eq_true (by with_unfolding_all rfl),
   of_decide_eq_true (by with_unfolding_all rfl),
   of_decide_eq_true (by with_unfolding_all rfl)⟩

/-- Claim C5, witness for the amended theorem at a concrete particle. -/
theorem c5_euler_step_witness :
    (¬ cexC5p.role = Role.MINI_SHELL) ∧ fluidActive cexC5p = false ∧
    cexC5oldp.fluid = false ∧
    (cexC5p.update cexC5e).1.vel = cexC5p.vel.add cexC5p.acc :=
  ⟨of_decide_eq_true (by with_unfolding_all rfl),
   of_decide_eq_true (by with_unfolding_all rfl),
   of_decide_eq_true (by with_unfolding_all rfl),
   (c5_euler_step_amended cexC5p cexC5e cexC5oldp 1 (PVector.mk 0 0)
     (of_decide_eq_true (by with_unfolding_all rfl))
     (of_decide_eq_true (by with_unfolding_all rfl))
     (of_decide_eq_true (by with_unfolding_all rfl))).1⟩

lemma fadeAlpha_nonneg (fsa fst fd t : ℚ) : 0 ≤ fadeAlpha fsa fst fd t := le_max_left 0 _

lemma constrain_mono (x1 x2 lo hi : ℚ) (h : x1 ≤ x2) :
    constrain x1 lo hi ≤ constrain x2 lo hi :=
  max_le_max (min_le_min h le_rfl) le_rfl

lemma lerp_to_zero (a c : ℚ) : lerp a 0 c = a * (1 - c) := by unfold lerp; ring

lemma fadeAlpha_anti (fsa fst fd t1 t2 : ℚ) (hfd : 0 < fd) (hfsa : 0 ≤ fsa) (h : t1 ≤ t2) :
    fadeAlpha fsa fst fd t2 ≤ fadeAlpha fsa fst fd t1 := by
  unfold fadeAlpha
  apply max_le_max le_rfl
  rw [lerp_to_zero, lerp_to_zero]
  have hc : constrain ((t1 - fst) / fd) 0 1 ≤ constrain ((t2 - fst) / fd) 0 1 :=
    constrain_mono _ _ _ _ ((div_le_div_right hfd).mpr (by linarith))
  have := mul_le_mul_of_nonneg_left
    (by linarith :
      1 - constrain ((t2 - fst) / fd) 0 1 ≤ 1 - constrain ((t1 - fst) / fd) 0 1) hfsa
  linarith

lemma fadeAlpha_zero (fsa fst fd t : ℚ) (hfd : 0 < fd) (h : fst + fd ≤ t) :
    fadeAlpha fsa fst fd t = 0 := by
  have h1 : (1 : ℚ) ≤ (t - fst) / fd := by
    rw [le_div_iff hfd]; linarith
  have h2 : constrain ((t - fst) / fd) 0 1 = 1 := by
    unfold constrain
    rw [min_eq_right h1]
    exact max_eq_left (by norm_num)
  unfold fadeAlpha
  rw [h2, lerp_to_zero]
  simp

lemma fadingTriggered_of_fading (p : Particle) (t : ℚ) (h : p.isFading = true) :
    p.fadingTriggered t = false := by simp [Particle.fadingTriggered, h]

lemma alphaStep_fading (p : Particle) (t : ℚ) (h : p.isFading = true) :
    p.alphaStep t = fadeAlpha p.fadeStartAlpha p.fadeStartTime p.fadeDuration t := by
  simp [Particle.alphaStep, h]

lemma isFadingStep_fading (p : Particle) (t : ℚ) (h : p.isFading = true) :
    p.isFadingStep t = true := by simp [Particle.isFadingStep, h]

lemma fadeFields_fading (p : Particle) (t : ℚ) (h : p.isFading = true) :
    p.fadeStartTimeStep t = p.fadeStartTime ∧ p.fadeStartAlphaStep t = p.fadeStartAlpha ∧
      p.fadeDurationStep t = p.fadeDuration := by
  simp [Particle.fadeStartTimeStep, Particle.fadeStartAlphaStep, Particle.fadeDurationStep,
    fadingTriggered_of_fading p t h]

/-- Claim C2: once a particle is fading, `isFading` never reverts across
updates, alpha stays ≥ 0, alpha is non-increasing across subsequent updates
(times non-decreasing), and alpha is exactly 0 from the first update at or
after `fadeStartTime + fadeDuration`. -/
theorem c2_fade_monotone (p : Particle) (e1 e2 : UpdEnv)
    (hf : p.isFading = true) (hfd : 0 < p.fadeDuration) (hfsa : 0 ≤ p.fadeStartAlpha)
    (ha : 0 ≤ p.alpha) (ht : e1.t ≤ e2.t) :
    (p.update e1).1.isFading = true ∧
    (((p.update e1).1.update e2).1.isFading = true) ∧
    (0 ≤ (p.update e1).1.alpha) ∧
    (((p.update e1).1.update e2).1.alpha ≤ (p.update e1).1.alpha) ∧
    (p.fadeStartTime + p.fadeDuration ≤ e1.t → (p.update e1).1.alpha = 0) := by
  by_cases hrole : p.role = Role.MINI_SHELL
  · by_cases hd : 0 < p.delay
    · by_cases htr : p.delay ≤ e1.t - p.timeCreated
      · -- the mini-shell triggers at e1: alpha forced to 0
        have hp1 : (p.update e1).1 = { p with alpha := 0, delay := 0 } :=
          congrArg Prod.fst (update_mini_trigger p e1 hrole hd htr)
        have hp2 : (({ p with alpha := 0, delay := 0 } : Particle).update e2).1
            = ({ p with alpha := 0, delay := 0 } : Particle) :=
          congrArg Prod.fst
            (update_mini_spent ({ p with alpha := 0, delay := 0 } : Particle) e2 hrole
              (le_refl 0))
        rw [hp1, hp2]
        exact ⟨hf, hf, le_refl 0, le_refl 0, fun _ => rfl⟩
      · -- still pending at e1
        have hp1 : (p.update e1).1 = p.updateMain e1 :=
          congrArg Prod.fst (update_mini_pending p e1 hrole hd htr)
        obtain ⟨hfs1, hfs2, hfs3⟩ := fadeFields_fading p e1.t hf
        have halpha1 : (p.updateMain e1).alpha
            = fadeAlpha p.fadeStartAlpha p.fadeStartTime p.fadeDuration e1.t := by
          rw [updateMain_alpha]; exact alphaStep_fading p e1.t hf
        have hfad1 : (p.updateMain e1).isFading = true := by
          rw [updateMain_isFading]; exact isFadingStep_fading p e1.t hf
        have hrole1 : (p.updateMain e1).role = Role.MINI_SHELL := by
          rw [updateMain_role]; exact hrole
        have hdel1 : (p.updateMain e1).delay = p.delay := updateMain_delay p e1
        have htc1 : (p.updateMain e1).timeCreated = p.timeCreated := updateMain_timeCreated p e1
        have hfields1 : (p.updateMain e1).fadeStartTime = p.fadeStartTime
            ∧ (p.updateMain e1).fadeStartAlpha = p.fadeStartAlpha
            ∧ (p.updateMain e1).fadeDuration = p.fadeDuration := by
          rw [updateMain_fadeStartTime, updateMain_fadeStartAlpha, updateMain_fadeDuration]
          exact ⟨hfs1, hfs2, hfs3⟩
        rw [hp1]
        by_cases htr2 : p.delay ≤ e2.t - p.timeCreated
        · have hp2 : ((p.updateMain e1).update e2).1
              = { p.updateMain e1 with alpha := 0, delay := 0 } :=
            congrArg Prod.fst
              (update_mini_trigger (p.updateMain e1) e2 hrole1 (by rw [hdel1]; exact hd)
                (by rw [hdel1, htc1]; exact htr2))
          rw [hp2]
          refine ⟨hfad1, hfad1, ?_, ?_, ?_⟩
          · rw [halpha1]; exact fadeAlpha_nonneg _ _ _ _
          · show (0 : ℚ) ≤ (p.updateMain e1).alpha
            rw [halpha1]; exact fadeAlpha_nonneg _ _ _ _
          · intro hz
            rw [halpha1]
            exact fadeAlpha_zero _ _ _ _ hfd hz
        · have hp2 : ((p.updateMain e1).update e2).1 = (p.updateMain e1).updateMain e2 :=
            congrArg Prod.fst
              (update_mini_pending (p.updateMain e1) e2 hrole1 (by rw [hdel1]; exact hd)
                (by rw [hdel1, htc1]; exact htr2))
          rw [hp2]
          have halpha2 : ((p.updateMain e1).updateMain e2).alpha
              = fadeAlpha p.fadeStartAlpha p.fadeStartTime p.fadeDuration e2.t := by
            rw [updateMain_alpha, alphaStep_fading _ e2.t hfad1,
              hfields1.1, hfields1.2.1, hfields1.2.2]
          have hfad2 : ((p.updateMain e1).updateMain e2).isFading = true := by
            rw [updateMain_isFading]; exact isFadingStep_fading _ e2.t hfad1
          refine ⟨hfad1, hfad2, ?_, ?_, ?_⟩
          · rw [halpha1]; exact fadeAlpha_nonneg _ _ _ _
          · rw [halpha1, halpha2]; exact fadeAlpha_anti _ _ _ _ _ hfd hfsa ht
          · intro hz
            rw [halpha1]
            exact fadeAlpha_zero _ _ _ _ hfd hz
    · -- spent mini-shell: alpha forced to 0 at every update
      have hds : p.delay ≤ 0 := le_of_not_lt hd
      have hp1 : (p.update e1).1 = { p with alpha := 0 } :=
        congrArg Prod.fst (update_mini_spent p e1 hrole hds)
      have hp2 : (({ p with alpha := 0 } : Particle).update e2).1
          = ({ p with alpha := 0 } : Particle) :=
        congrArg Prod.fst
          (update_mini_spent ({ p with alpha := 0 } : Particle) e2 hrole hds)
      rw [hp1, hp2]
      exact ⟨hf, hf, le_refl 0, le_refl 0, fun _ => rfl⟩
  · -- not a mini-shell: the fading interpolation path
    have hp1 : (p.update e1).1 = p.updateMain e1 :=
      congrArg Prod.fst (update_ne_mini p e1 hrole)
    obtain ⟨hfs1, hfs2, hfs3⟩ := fadeFields_fading p e1.t hf
    have halpha1 : (p.updateMain e1).alpha
        = fadeAlpha p.fadeStartAlpha p.fadeStartTime p.fadeDuration e1.t := by
      rw [updateMain_alpha]; exact alphaStep_fading p e1.t hf
    have hfad1 : (p.updateMain e1).isFading = true := by
      rw [updateMain_isFading]; exact isFadingStep_fading p e1.t hf
    have hrole1 : ¬ (p.updateMain e1).role = Role.MINI_SHELL := by
      rw [updateMain_role]; exact hrole
    have hp2 : ((p.updateMain e1).update e2).1 = (p.updateMain e1).updateMain e2 :=
      congrArg Prod.fst (update_ne_mini (p.updateMain e1) e2 hrole1)
    have halpha2 : ((p.updateMain e1).updateMain e2).alpha
        = fadeAlpha p.fadeStartAlpha p.fadeStartTime p.fadeDuration e2.t := by
      rw [updateMain_alpha, alphaStep_fading _ e2.t hfad1,
        updateMain_fadeStartTime, updateMain_fadeStartAlpha, updateMain_fadeDuration,
        hfs1, hfs2, hfs3]
    have hfad2 : ((p.updateMain e1).updateMain e2).isFading = true := by
      rw [updateMain_isFading]; exact isFadingStep_fading _ e2.t hfad1
    rw [hp1, hp2]
    refine ⟨hfad1, hfad2, ?_, ?_, ?_⟩
    · rw [halpha1]; exact fadeAlpha_nonneg _ _ _ _
    · rw [halpha1, halpha2]; exact fadeAlpha_anti _ _ _ _ _ hfd hfsa ht
    · intro hz
      rw [halpha1]
      exact fadeAlpha_zero _ _ _ _ hfd hz

/-- Claim C2, witness at a concrete fading particle and two increasing
update times. -/
theorem c2_fade_monotone_witness :
    c2wP.isFading = true ∧ 0 < c2wP.fadeDuration ∧ 0 ≤ c2wP.fadeStartAlpha ∧
    0 ≤ c2wP.alpha ∧ c2wE1.t ≤ c2wE2.t ∧
    ((c2wP.update c2wE1).1.update c2wE2).1.alpha ≤ (c2wP.update c2wE1).1.alpha :=
  ⟨rfl, of_decide_eq_true (by with_unfolding_all rfl),
   of_decide_eq_true (by with_unfolding_all rfl),
   of_decide_eq_true (by with_unfolding_all rfl),
   of_decide_eq_true (by with_unfolding_all rfl),
   (c2_fade_monotone c2wP c2wE1 c2wE2 rfl
     (of_decide_eq_true (by with_unfolding_all rfl))
     (of_decide_eq_true (by with_unfolding_all rfl))
     (of_decide_eq_true (by with_unfolding_all rfl))
     (of_decide_eq_true (by with_unfolding_all rfl))).2.2.2.1⟩

lemma createLoop_succ (cfg : SystemConfig) (t : ℚ) (mk : ℕ → CPArgs) (n : ℕ)
    (ps : List Particle) :
    createLoop cfg t mk (n + 1) ps
      = Firework.createParticle cfg t (mk n) (createLoop cfg t mk n ps) := by
  simp [createLoop, List.range_succ]

lemma createLoop_no_cap (cfg : SystemConfig) (t : ℚ) (mk : ℕ → CPArgs) :
    ∀ n ps, ps.length + n ≤ cfg.maxTotalParticles →
      createLoop cfg t mk n ps = ps ++ (List.range n).map (fun i => mkCreated cfg t (mk i)) := by
  intro n
  induction n with
  | zero => intro ps _; simp [createLoop]
  | succ n ih =>
    intro ps h
    rw [createLoop_succ, ih ps (by omega)]
    have hlen : (ps ++ (List.range n).map fun i => mkCreated cfg t (mk i)).length
        < cfg.maxTotalParticles := by
      simp only [List.length_append, List.length_map, List.length_range]
      omega
    unfold Firework.createParticle
    rw [if_pos hlen]
    simp [List.range_succ]

lemma magSq_smul (v : PVector) (s : ℚ) : (v.smul s).magSq = s ^ 2 * v.magSq := by
  simp only [PVector.smul, PVector.magSq]
  ring

lemma add_zero_vec (v : PVector) : v.add (PVector.mk 0 0) = v := by
  simp [PVector.add]

lemma smul_zero_vec (s : ℚ) : (PVector.mk 0 0).smul s = PVector.mk 0 0 := by
  simp [PVector.smul]

lemma explode_peony_eq (cfg : SystemConfig) (shellPos shellVel : PVector) (d : ExplodeDraws)
    (t : ℚ) (ps : List Particle) :
    Firework.explode "PEONY" cfg shellPos shellVel d t ps
      = createLoop cfg t
          (peonyArgs false shellPos (shellVel.smul (1/10)) (jsOrQ cfg.explosionSize 400 / 10) d)
          (min (jsOrNat cfg.particleCount 1000) MAX_PARTICLES_PER_FIREWORK) ps := by
  simp [Firework.explode, explodePeony]

/-- Claim C6 (amended): a PEONY explosion with the global cap not yet reached
produces exactly `min(particleCount, 5000)` particles, each starting at the
shell's position at explosion time; each particle's velocity is
`dir·m + 0.1·shellVel` with `dir` a unit vector and `m` drawn from
`[0.8·S/10, 1.2·S/10)` — so the velocity MAGNITUDE lies within the configured
range only when the inherited shell-velocity term is zero. -/
theorem c6_peony_amended (cfg : SystemConfig) (shellPos shellVel : PVector)
    (d : ExplodeDraws) (t : ℚ) (ps : List Particle)
    (hsize : 0 ≤ cfg.explosionSize)
    (hcap : ps.length + min (jsOrNat cfg.particleCount 1000) MAX_PARTICLES_PER_FIREWORK
      ≤ cfg.maxTotalParticles)
    (hdir : ∀ i, (d.dir i).magSq = 1)
    (hu : ∀ i, 0 ≤ d.magU i ∧ d.magU i < 1) :
    (Firework.explode "PEONY" cfg shellPos shellVel d t ps).length
        = ps.length + min (jsOrNat cfg.particleCount 1000) MAX_PARTICLES_PER_FIREWORK ∧
    ∀ q ∈ (Firework.explode "PEONY" cfg shellPos shellVel d t ps).drop ps.length,
      q.pos = shellPos ∧ q.role = Role.EXPLOSION ∧
      (∃ i, q.vel
        = ((d.dir i).smul (rand (jsOrQ cfg.explosionSize 400 / 10 * (4/5))
            (jsOrQ cfg.explosionSize 400 / 10 * (6/5)) (d.magU i))).add
            (shellVel.smul (1/10))) ∧
      (shellVel = PVector.mk 0 0 →
        (jsOrQ cfg.explosionSize 400 / 10 * (4/5)) ^ 2 ≤ q.vel.magSq ∧
        q.vel.magSq ≤ (jsOrQ cfg.explosionSize 400 / 10 * (6/5)) ^ 2) := by
  have hbf : 0 ≤ jsOrQ cfg.explosionSize 400 / 10 := by
    unfold jsOrQ
    split_ifs
    · norm_num
    · positivity
  rw [explode_peony_eq,
    createLoop_no_cap cfg t
      (peonyArgs false shellPos (shellVel.smul (1/10)) (jsOrQ cfg.explosionSize 400 / 10) d)
      (min (jsOrNat cfg.particleCount 1000) MAX_PARTICLES_PER_FIREWORK) ps hcap]
  constructor
  · simp [List.length_append, List.length_map, List.length_range]
  · intro q hq
    rw [List.drop_left] at hq
    rcases List.mem_map.mp hq with ⟨i, _, rfl⟩
    set bf := jsOrQ cfg.explosionSize 400 / 10 with hbfdef
    set m := rand (bf * (4/5)) (bf * (6/5)) (d.magU i) with hm
    refine ⟨rfl, rfl, ⟨i, ?_⟩, ?_⟩
    · show ((d.dir i).smul (m * (if false then 21/20 else 1))).add (shellVel.smul (1/10))
        = ((d.dir i).smul m).add (shellVel.smul (1/10))
      norm_num
    · intro hzero
      have hmlo : bf * (4/5) ≤ m := by
        rw [hm]
        unfold rand
        nlinarith [(hu i).1, (hu i).2]
      have hmhi : m ≤ bf * (6/5) := by
        rw [hm]
        unfold rand
        nlinarith [(hu i).1, (hu i).2]
      have hvel : (mkCreated cfg t
          (peonyArgs false shellPos (shellVel.smul (1/10)) bf d i)).vel
          = (d.dir i).smul (m * 1) := by
        show ((d.dir i).smul (m * (if false then 21/20 else 1))).add (shellVel.smul (1/10))
          = (d.dir i).smul (m * 1)
        rw [hzero, smul_zero_vec, add_zero_vec]
        norm_num
      rw [hvel, magSq_smul, hdir i, mul_one, mul_one]
      constructor
      · nlinarith [hbf, hmlo, hmhi]
      · nlinarith [hbf, hmlo, hmhi]

/-- Claim C6, counterexample: a PEONY explosion of a shell moving with
velocity (3/2, -1/2) (a velocity that satisfies the apex condition), with a
unit direction (-1, 0) and the magnitude draw at the lower bound 32, produces
a particle whose squared speed is 40577/40 < 32² — the inherited
0.1·shellVelocity term pushes the speed OUTSIDE the configured [32, 48]
range, refuting the claim as stated (position does equal the shell's). -/
theorem c6_peony_counterexample :
    ((Firework.explode "PEONY" cexC6cfg (PVector.mk 500 800) (PVector.mk (3/2) (-(1/2)))
        cexC6draws 0 []).map (fun q => q.vel.magSq) = [40577/40]) ∧
    (40577/40 : ℚ) < 32 * 32 ∧
    rand (jsOrQ cexC6cfg.explosionSize 400 / 10 * (4/5))
      (jsOrQ cexC6cfg.explosionSize 400 / 10 * (6/5)) (cexC6draws.magU 0) = 32 ∧
    (cexC6draws.dir 0).magSq = 1 ∧
    ((Firework.explode "PEONY" cexC6cfg (PVector.mk 500 800) (PVector.mk (3/2) (-(1/2)))
        cexC6draws 0 []).map (fun q => q.pos) = [PVector.mk 500 800]) := by
  have hn : min (jsOrNat cexC6cfg.particleCount 1000) MAX_PARTICLES_PER_FIREWORK = 1 := by
    decide
  have hres : Firework.explode "PEONY" cexC6cfg (PVector.mk 500 800)
      (PVector.mk (3/2) (-(1/2))) cexC6draws 0 []
      = [mkCreated cexC6cfg 0 (peonyArgs false (PVector.mk 500 800)
          ((PVector.mk (3/2) (-(1/2))).smul (1/10)) (jsOrQ cexC6cfg.explosionSize 400 / 10)
          cexC6draws 0)] := by
    rw [explode_peony_eq, hn,
      createLoop_no_cap cexC6cfg 0
        (peonyArgs false (PVector.mk 500 800) ((PVector.mk (3/2) (-(1/2))).smul (1/10))
          (jsOrQ cexC6cfg.explosionSize 400 / 10) cexC6draws)
        1 [] (by decide)]
    simp [List.range_succ]
  refine ⟨?_, by norm_num, ?_, ?_, ?_⟩
  · rw [hres]
    simp only [List.map]
    norm_num [mkCreated, Particle.create, peonyArgs, PVector.smul, PVector.add, PVector.magSq,
      rand, jsOrQ, cexC6draws, cexC6cfg]
  · norm_num [rand, jsOrQ, cexC6cfg, cexC6draws]
  · norm_num [PVector.magSq, cexC6draws]
  · rw [hres]
    norm_num [mkCreated, Particle.create, peonyArgs]

/-- Claim C6, witness for the amended theorem: a 2-particle PEONY burst under
an empty list and a zero shell velocity. -/
theorem c6_peony_witness :
    (0 ≤ c6wCfg.explosionSize) ∧
    (([] : List Particle).length
        + min (jsOrNat c6wCfg.particleCount 1000) MAX_PARTICLES_PER_FIREWORK
      ≤ c6wCfg.maxTotalParticles) ∧
    (∀ i, ((({} : ExplodeDraws)).dir i).magSq = 1) ∧
    (∀ i, 0 ≤ (({} : ExplodeDraws)).magU i ∧ (({} : ExplodeDraws)).magU i < 1) ∧
    (Firework.explode "PEONY" c6wCfg (PVector.mk 500 800) (PVector.mk 0 0) {} 0 []).length
      = ([] : List Particle).length
        + min (jsOrNat c6wCfg.particleCount 1000) MAX_PARTICLES_PER_FIREWORK :=
  ⟨of_decide_eq_true (by with_unfolding_all rfl),
   by decide,
   fun _ => of_decide_eq_true (by with_unfolding_all rfl),
   fun _ => ⟨of_decide_eq_true (by with_unfolding_all rfl),
     of_decide_eq_true (by with_unfolding_all rfl)⟩,
   (c6_peony_amended c6wCfg (PVector.mk 500 800) (PVector.mk 0 0) {} 0 []
     (of_decide_eq_true (by with_unfolding_all rfl))
     (by decide)
     (fun _ => of_decide_eq_true (by with_unfolding_all rfl))
     (fun _ => ⟨of_decide_eq_true (by with_unfolding_all rfl),
       of_decide_eq_true (by with_unfolding_all rfl)⟩)).1⟩

lemma shellFrame_eq (p : Particle) (f : PVector) (e : UpdEnv)
    (hrole : ¬ p.role = Role.MINI_SHELL) (hfl : fluidActive p = false) :
    (shellFrame p f e).vel = p.vel.add (p.acc.add f) ∧
    (shellFrame p f e).pos = p.pos.add ((p.vel.add (p.acc.add f)).smul (dtOf e.deltaTime)) ∧
    (shellFrame p f e).acc = PVector.mk 0 0 ∧
    (shellFrame p f e).role = p.role ∧
    (shellFrame p f e).particleStyle = p.particleStyle ∧
    (shellFrame p f e).fluid = p.fluid := by
  have hfl' : fluidActive ({ p with acc := p.acc.add f } : Particle) = false := hfl
  have hrole' : ¬ ({ p with acc := p.acc.add f } : Particle).role = Role.MINI_SHELL := hrole
  have hp : shellFrame p f e = ({ p with acc := p.acc.add f } : Particle).updateMain e := by
    unfold shellFrame
    rw [update_ne_mini ({ p with acc := p.acc.add f } : Particle) e hrole']
  rw [hp]
  refine ⟨?_, rfl, ?_, rfl, rfl, rfl⟩
  · show ({ p with acc := p.acc.add f } : Particle).velStep = p.vel.add (p.acc.add f)
    simp [Particle.velStep, hfl']
  · show ({ p with acc := p.acc.add f } : Particle).accStep e = PVector.mk 0 0
    simp [Particle.accStep, hfl']

lemma shellStates_cons (p : Particle) (s : PVector × UpdEnv) (rest : List (PVector × UpdEnv)) :
    shellStates p (s :: rest)
      = shellFrame p s.1 s.2 :: shellStates (shellFrame p s.1 s.2) rest := rfl

lemma shellRunFold_nil (p : Particle) : shellRunFold p [] = p := rfl

lemma shellRunFold_cons (p : Particle) (s : PVector × UpdEnv) (rest : List (PVector × UpdEnv)) :
    shellRunFold p (s :: rest) = shellRunFold (shellFrame p s.1 s.2) rest := rfl

lemma shellRunFold_mem_states : ∀ (steps : List (PVector × UpdEnv)) (p : Particle),
    steps ≠ [] → shellRunFold p steps ∈ shellStates p steps := by
  intro steps
  induction steps with
  | nil => intro p h; exact absurd rfl h
  | cons s rest ih =>
    intro p _
    by_cases hr : rest = []
    · subst hr
      rw [shellRunFold_cons, shellRunFold_nil, shellStates_cons]
      simp [shellStates]
    · rw [shellRunFold_cons, shellStates_cons]
      exact List.mem_cons_of_mem _ (ih (shellFrame p s.1 s.2) hr)

lemma shell_descends (δ : ℚ) (hδ : 0 < δ) :
    ∀ (steps : List (PVector × UpdEnv)) (p : Particle),
      ¬ p.role = Role.MINI_SHELL → fluidActive p = false →
      (∀ s ∈ steps, δ ≤ dtOf s.2.deltaTime) →
      (∃ q ∈ shellStates p steps, -(1/2) ≤ q.vel.y) ∨
        (shellRunFold p steps).pos.y ≤ p.pos.y - δ/2 * steps.length := by
  intro steps
  induction steps with
  | nil =>
    intro p _ _ _
    right
    simp [shellRunFold]
  | cons s rest ih =>
    intro p h1 h2 h3
    obtain ⟨hv, hp, hacc, hrole, hstyle, hfluid⟩ := shellFrame_eq p s.1 s.2 h1 h2
    by_cases hcase : -(1/2) ≤ (shellFrame p s.1 s.2).vel.y
    · left
      exact ⟨shellFrame p s.1 s.2,
        by rw [shellStates_cons]; exact List.mem_cons_self _ _, hcase⟩
    · have h1' : ¬ (shellFrame p s.1 s.2).role = Role.MINI_SHELL := by
        rw [hrole]; exact h1
      have h2' : fluidActive (shellFrame p s.1 s.2) = false := by
        unfold fluidActive at h2 ⊢
        rw [hstyle, hfluid]
        exact h2
      have h3' : ∀ x ∈ rest, δ ≤ dtOf x.2.deltaTime :=
        fun x hx => h3 x (List.mem_cons_of_mem _ hx)
      have hdt : δ ≤ dtOf s.2.deltaTime := h3 s (List.mem_cons_self _ _)
      have hvy : (shellFrame p s.1 s.2).vel.y < -(1/2) := lt_of_not_le hcase
      have hpy : (shellFrame p s.1 s.2).pos.y
          = p.pos.y + (shellFrame p s.1 s.2).vel.y * dtOf s.2.deltaTime := by
        rw [hp, hv]
        simp [PVector.add, PVector.smul]
      have hdtpos : 0 ≤ dtOf s.2.deltaTime := le_trans (le_of_lt hδ) hdt
      have hscale : (shellFrame p s.1 s.2).vel.y * dtOf s.2.deltaTime
          ≤ -(1/2) * dtOf s.2.deltaTime :=
        mul_le_mul_of_nonneg_right (le_of_lt hvy) hdtpos
      have hdrop1 : (shellFrame p s.1 s.2).pos.y ≤ p.pos.y - δ/2 := by
        rw [hpy]
        linarith [hscale, hdt]
      rcases ih (shellFrame p s.1 s.2) h1' h2' h3' with ⟨q, hq, hqv⟩ | hdropr
      · left
        exact ⟨q, by rw [shellStates_cons]; exact List.mem_cons_of_mem _ hq, hqv⟩
      · right
        rw [shellRunFold_cons]
        have hlen : (((s :: rest).length : ℕ) : ℚ) = ((rest.length : ℕ) : ℚ) + 1 := by
          push_cast [List.length_cons]
          ring
        rw [hlen]
        nlinarith [hdrop1, hdropr]

/-- Claim C7: while ascending and not yet exploded (shell still present),
an update calls `explode()` exactly when the apex condition
`vel.y ≥ -0.5 ∨ pos.y ≤ explosionAltitude` holds, and does nothing before
that; moreover, over any long enough run of shell physics frames with frame
steps bounded below, some frame satisfies the apex condition — every launched
shell eventually detonates even if it never decelerates. -/
theorem c7_apex_trigger (fw : Firework) (o : FwObs) (p : Particle)
    (steps : List (PVector × UpdEnv)) (δ : ℚ)
    (hasc : fw.lifecycle = Lifecycle.ASCENT) (hhe : fw.hasExploded = false)
    (hin : o.shellInParticles = true)
    (hrole : ¬ p.role = Role.MINI_SHELL) (hfl : fluidActive p = false)
    (hδ : 0 < δ) (hdt : ∀ s ∈ steps, δ ≤ dtOf s.2.deltaTime)
    (hfar : p.pos.y - δ/2 * steps.length ≤ fw.explosionAltitude) (hne : steps ≠ []) :
    ((fw.update o).2 = true ↔ (-(1/2) ≤ o.shellVelY ∨ o.shellPosY ≤ fw.explosionAltitude)) ∧
    (¬ (-(1/2) ≤ o.shellVelY ∨ o.shellPosY ≤ fw.explosionAltitude) →
      fw.update o = (fw, false)) ∧
    (∃ q ∈ shellStates p steps, -(1/2) ≤ q.vel.y ∨ q.pos.y ≤ fw.explosionAltitude) := by
  have hfix : ¬ (-(1/2) ≤ o.shellVelY ∨ o.shellPosY ≤ fw.explosionAltitude) →
      fw.update o = (fw, false) := by
    intro hnc
    have ha : fw.updateAscend o = (fw, false) :=
      fwUpdateAscend_not_explodable fw o (fun hc => hnc hc.2.1)
    unfold Firework.update
    rw [ha]
    rw [if_neg (fun hc => by rw [hin] at hc; exact absurd hc.2 (by simp))]
  have hfire : (-(1/2) ≤ o.shellVelY ∨ o.shellPosY ≤ fw.explosionAltitude) →
      (fw.update o).2 = true := by
    intro hc
    have ha : fw.updateAscend o
        = ({ fw with lifecycle := Lifecycle.EXPLOSION, hasExploded := true }, true) := by
      unfold Firework.updateAscend
      rw [if_pos ⟨hasc, hc, hhe⟩]
    unfold Firework.update
    rw [ha]
    rw [if_neg (by simp)]
  refine ⟨⟨?_, hfire⟩, hfix, ?_⟩
  · intro hflag
    by_contra hnc
    rw [hfix hnc] at hflag
    exact absurd hflag (by simp)
  · rcases shell_descends δ hδ steps p hrole hfl hdt with ⟨q, hq, hqv⟩ | hdrop
    · exact ⟨q, hq, Or.inl hqv⟩
    · exact ⟨shellRunFold p steps, shellRunFold_mem_states steps p hne,
        Or.inr (by linarith [hdrop, hfar])⟩

/-- Claim C7, witness at a concrete ascending firework and a one-frame shell
run. -/
theorem c7_apex_trigger_witness :
    (Firework.init "PEONY" 100).lifecycle = Lifecycle.ASCENT ∧
    (Firework.init "PEONY" 100).hasExploded = false ∧
    (¬ c7wP.role = Role.MINI_SHELL) ∧ fluidActive c7wP = false ∧
    ((0 : ℚ) < 1/60) ∧
    (((Firework.init "PEONY" 100).update
        { shellVelY := 0, shellPosY := 50, shellInParticles := true }).2 = true ↔
      (-(1/2) ≤ (0 : ℚ) ∨ (50 : ℚ) ≤ (Firework.init "PEONY" 100).explosionAltitude)) :=
  ⟨rfl, rfl, of_decide_eq_true (by with_unfolding_all rfl),
   of_decide_eq_true (by with_unfolding_all rfl),
   of_decide_eq_true (by with_unfolding_all rfl),
   (c7_apex_trigger (Firework.init "PEONY" 100)
     { shellVelY := 0, shellPosY := 50, shellInParticles := true }
     c7wP [(PVector.mk 0 0, cexC5e)] (1/60) rfl rfl rfl
     (of_decide_eq_true (by with_unfolding_all rfl))
     (of_decide_eq_true (by with_unfolding_all rfl))
     (of_decide_eq_true (by with_unfolding_all rfl))
     (of_decide_eq_true (by with_unfolding_all rfl))
     (of_decide_eq_true (by with_unfolding_all rfl))
     (by simp)).1⟩

/-- Claim C8 (amended): in the main version, `explode` on a type tag outside
the seven handled cases takes the explicit default branch — a generic
spherical burst of EXPLOSION particles — and never errors; in the legacy
version the pattern table has no default entry, so `explode` with a tag
outside its four entries fails (call of an undefined table entry). -/
theorem c8_default_branch_amended (typ : String) (cfg : SystemConfig)
    (shellPos shellVel : PVector) (d : ExplodeDraws) (t : ℚ) (ps : List Particle)
    (ocfg : OldConfig) (opos : PVector) (od : OldDraws)
    (h1 : typ ≠ "PEONY") (h2 : typ ≠ "CHRYSANTHEMUM") (h3 : typ ≠ "PALM")
    (h4 : typ ≠ "WILLOW") (h5 : typ ≠ "STROBE") (h6 : typ ≠ "CRACKLING")
    (h7 : typ ≠ "MULTI_BREAK") (ho : typ ≠ "RANDOM")
    (hcap : ps.length + min (jsOrNat cfg.particleCount 1000) MAX_PARTICLES_PER_FIREWORK
      ≤ cfg.maxTotalParticles) :
    Firework.explode typ cfg shellPos shellVel d t ps
        = explodeDefault cfg shellPos (shellVel.smul (1/10)) (jsOrQ cfg.explosionSize 400 / 10)
          (min (jsOrNat cfg.particleCount 1000) MAX_PARTICLES_PER_FIREWORK) d t ps ∧
    (Firework.explode typ cfg shellPos shellVel d t ps).length
        = ps.length + min (jsOrNat cfg.particleCount 1000) MAX_PARTICLES_PER_FIREWORK ∧
    (∀ q ∈ (Firework.explode typ cfg shellPos shellVel d t ps).drop ps.length,
      q.role = Role.EXPLOSION) ∧
    OldFirework.explode typ ocfg opos od
        = Except.error "TypeError: call of undefined pattern entry" := by
  have hd : Firework.explode typ cfg shellPos shellVel d t ps
      = explodeDefault cfg shellPos (shellVel.smul (1/10)) (jsOrQ cfg.explosionSize 400 / 10)
        (min (jsOrNat cfg.particleCount 1000) MAX_PARTICLES_PER_FIREWORK) d t ps := by
    simp [Firework.explode, h1, h2, h3, h4, h5, h6, h7]
  have hdd : explodeDefault cfg shellPos (shellVel.smul (1/10))
        (jsOrQ cfg.explosionSize 400 / 10)
        (min (jsOrNat cfg.particleCount 1000) MAX_PARTICLES_PER_FIREWORK) d t ps
      = ps ++ (List.range (min (jsOrNat cfg.particleCount 1000)
          MAX_PARTICLES_PER_FIREWORK)).map
          (fun i => mkCreated cfg t (defaultArgs shellPos (shellVel.smul (1/10))
            (jsOrQ cfg.explosionSize 400 / 10) d i)) := by
    unfold explodeDefault
    exact createLoop_no_cap cfg t _ _ ps hcap
  refine ⟨hd, ?_, ?_, ?_⟩
  · rw [hd, hdd]
    simp [List.length_append, List.length_map, List.length_range]
  · intro q hq
    rw [hd, hdd, List.drop_left] at hq
    rcases List.mem_map.mp hq with ⟨i, _, rfl⟩
    rfl
  · simp [OldFirework.explode, oldExplosionPatterns, h1, h2, h3, ho]

/-- Claim C8, counterexample: "WILLOW" is a type tag the main version
recognizes, but the legacy `explosionPatterns` table has no entry for it and
no default branch — legacy `explode` fails instead of producing a generic
burst, so the claim as stated does not hold of `src/fireworks.js`. -/
theorem c8_default_branch_counterexample :
    OldFirework.explode "WILLOW" {} (PVector.mk 0 0) {}
      = Except.error "TypeError: call of undefined pattern entry" ∧
    oldExplosionPatterns "WILLOW" = none ∧
    FIREWORK_TYPES.contains "WILLOW" = true := by
  exact ⟨rfl, rfl, rfl⟩

/-- Claim C8, witness for the amended theorem at the unrecognized tag
"SPINNER". -/
theorem c8_default_branch_witness :
    ("SPINNER" : String) ≠ "PEONY" ∧ ("SPINNER" : String) ≠ "RANDOM" ∧
    OldFirework.explode "SPINNER" {} (PVector.mk 0 0) {}
      = Except.error "TypeError: call of undefined pattern entry" :=
  ⟨by decide, by decide,
    (c8_default_branch_amended "SPINNER" {} (PVector.mk 0 0) (PVector.mk 0 0) {} 0 []
      {} (PVector.mk 0 0) {}
      (by decide) (by decide) (by decide) (by decide) (by decide) (by decide) (by decide)
      (by decide) (by decide)).2.2.2⟩
